import Mathlib

/-!
Verification of the TanabeSugano ligand-field engine.

Shallow embedding of `tanabesugano/matrices.py`, `tanabesugano/tools.py` and
`tanabesugano/constants.py`.  Machine floats are modelled by an arbitrary
linear ordered field; the module-level constants `_sqrt2`, `_sqrt3`, `_sqrt6`
(stored float approximations in the source) and the external routine
`numpy.linalg.eigh` are abstracted into an environment `Env`, so that every
theorem about the solver structure holds for every value of those constants
and every eigensolver.  A numpy 2-d array is a `List (List α)` (list of rows);
a numpy fancy assignment with an out-of-range index raises `IndexError`,
modelled by `Option`; an index `i` with `-N <= i < 0` wraps to `i + N`
(numpy negative indexing).  Python dicts are association lists in insertion
order.
-/

/-- Simulation environment: the module-level square-root constants of
`matrices.py` (lines 19-21) and the external eigensolver
(`numpy.linalg.eigh`, wrapped by `LigandFieldTheory.eigensolver`). -/
structure Env (α : Type) where
  _sqrt2 : α
  _sqrt3 : α
  _sqrt6 : α
  eig : List (List α) → List α

/-- `_2sqrt2 = _sqrt2 * 2.0` (matrices.py line 23). -/
def _2sqrt2 {α : Type} [Mul α] [OfNat α 2] (e : Env α) : α := e._sqrt2 * 2

/-- `_2sqrt3 = _sqrt3 * 2.0` (matrices.py line 24). -/
def _2sqrt3 {α : Type} [Mul α] [OfNat α 2] (e : Env α) : α := e._sqrt3 * 2

/-- `_3sqrt2 = _sqrt2 * 3.0` (matrices.py line 25). -/
def _3sqrt2 {α : Type} [Mul α] [OfNat α 3] (e : Env α) : α := e._sqrt2 * 3

/-- `_3sqrt3 = _sqrt3 * 3.0` (matrices.py line 26). -/
def _3sqrt3 {α : Type} [Mul α] [OfNat α 3] (e : Env α) : α := e._sqrt3 * 3

/-- `_3sqrt6 = _sqrt6 * 3.0` (matrices.py line 27). -/
def _3sqrt6 {α : Type} [Mul α] [OfNat α 3] (e : Env α) : α := e._sqrt6 * 3

/-- `LigandFieldTheory.__init__`: an instance stores the three parameters
`Dq`, `B`, `C` (matrices.py lines 35-46). -/
structure LigandFieldTheory (α : Type) where
  Dq : α
  B : α
  C : α

/-- `ENERGY_TOLERANCE = 1e-4` (constants.py line 25). -/
def ENERGY_TOLERANCE (α : Type) [DivisionRing α] : α := 1 / 10000

/-- `racah` (tools.py lines 12-35): Slater-Condon to Racah conversion,
`eVcm = 8065.54`, `B = eVcm * (F2 / 49.0 - 5 / 441.0 * F4)`,
`C = eVcm * (35 / 441.0 * F4)`. -/
def racah {α : Type} [DivisionRing α] (F2 F4 : α) : α × α :=
  let eVcm : α := 8065.54
  (eVcm * (F2 / 49 - 5 / 441 * F4), eVcm * (35 / 441 * F4))

/-- numpy index semantics for an axis of length `N`: an index `0 <= i < N`
addresses element `i`, an index `-N <= i < 0` addresses element `i + N`,
anything else raises `IndexError` (modelled as `none`). -/
def numpyIndex (N : ℕ) (i : ℤ) : Option ℕ :=
  if 0 ≤ i ∧ i < (N : ℤ) then some i.toNat
  else if -(N : ℤ) ≤ i ∧ i < 0 then some (i + N).toNat
  else none

/-- Write value `v` at row `i`, column `j` of a list-of-rows matrix
(in-range nat indices; out-of-range `List.set` is the identity). -/
def matSet {α : Type} (m : List (List α)) (i j : ℕ) (v : α) : List (List α) :=
  m.set i ((m.getD i []).set j v)

/-- `matrix[i, j] = value` for integer indices: bounds-checked numpy
assignment. -/
def npSet {α : Type} (N : ℕ) (m : List (List α)) (i j : ℤ) (v : α) :
    Option (List (List α)) :=
  match numpyIndex N i, numpyIndex N j with
  | some a, some b => some (matSet m a b v)
  | _, _ => none

/-- `np.zeros((size, size))` followed by `np.fill_diagonal(matrix,
diag_elements)` (matrices.py lines 79-81). -/
def diagMatrix {α : Type} [Zero α] (diag : List α) : List (List α) :=
  (List.range diag.length).map fun i =>
    (List.replicate diag.length (0 : α)).set i (diag.getD i 0)

/-- One iteration of the loop body of `construct_matrix`
(matrices.py lines 82-84): `matrix[i, j] = value; matrix[j, i] = value`. -/
def cmStep {α : Type} (N : ℕ) (m : List (List α)) (p : (ℤ × ℤ) × α) :
    Option (List (List α)) := do
  let m1 ← npSet N m p.1.1 p.1.2 p.2
  npSet N m1 p.1.2 p.1.1 p.2

/-- `LigandFieldTheory.construct_matrix` (matrices.py lines 73-85): build a
symmetric matrix from diagonal elements and an off-diagonal mapping, written
in dict insertion order; any out-of-range assignment raises. -/
def construct_matrix {α : Type} [Zero α] (diag_elements : List α)
    (off_diag_elements : List ((ℤ × ℤ) × α)) : Option (List (List α)) :=
  off_diag_elements.foldlM (cmStep diag_elements.length) (diagMatrix diag_elements)

/-- Entry `(i, j)` of a list-of-rows matrix, `0` outside the stored shape. -/
def entry {α : Type} [Zero α] (m : List (List α)) (i j : ℕ) : α :=
  (m.getD i []).getD j 0

/-- Value of the off-diagonal mapping at the unordered pair `(x, y)`:
the value stored under key `(x, y)`, else the one under `(y, x)`, else `0`. -/
def offVal {α : Type} [Zero α] (off : List ((ℤ × ℤ) × α)) (x y : ℕ) : α :=
  match List.lookup ((x : ℤ), (y : ℤ)) off with
  | some v => v
  | none => (List.lookup ((y : ℤ), (x : ℤ)) off).getD 0

/-- Dictionary access on a solver result: the value stored under a term
label, `[]` when the label is absent. -/
def getTerm {α : Type} (r : List (String × List α)) (k : String) : List α :=
  (List.lookup k r).getD []

section Solvers

variable {α : Type} [LinearOrderedField α]

namespace d2

/-- Matrix of `d2.A_1_1_states` (matrices.py lines 102-109). -/
def A_1_1_mat (e : Env α) (s : LigandFieldTheory α) : Option (List (List α)) :=
  construct_matrix
    [-8 * s.Dq + 10 * s.B + 5 * s.C,
     12 * s.Dq + 8 * s.B + 4 * s.C]
    [((0, 1), e._sqrt6 * (2 * s.B + s.C))]

/-- `d2.A_1_1_states` (matrices.py lines 102-110). -/
def A_1_1_states (e : Env α) (s : LigandFieldTheory α) : List α :=
  e.eig ((A_1_1_mat e s).getD [])

/-- Matrix of `d2.E_1_states` (matrices.py lines 112-116). -/
def E_1_mat (e : Env α) (s : LigandFieldTheory α) : Option (List (List α)) :=
  construct_matrix
    [-8 * s.Dq + s.B + 2 * s.C, 12 * s.Dq + 2 * s.C]
    [((0, 1), -_2sqrt3 e * s.B)]

/-- `d2.E_1_states` (matrices.py lines 112-117). -/
def E_1_states (e : Env α) (s : LigandFieldTheory α) : List α :=
  e.eig ((E_1_mat e s).getD [])

/-- Matrix of `d2.T_1_2_states` (matrices.py lines 119-123). -/
def T_1_2_mat (e : Env α) (s : LigandFieldTheory α) : Option (List (List α)) :=
  construct_matrix
    [-8 * s.Dq + s.B + 2 * s.C, 2 * s.Dq + 2 * s.C]
    [((0, 1), _2sqrt3 e * s.B)]

/-- `d2.T_1_2_states` (matrices.py lines 119-124). -/
def T_1_2_states (e : Env α) (s : LigandFieldTheory α) : List α :=
  e.eig ((T_1_2_mat e s).getD [])

/-- Matrix of `d2.T_3_1_states` (matrices.py lines 126-130). -/
def T_3_1_mat (e : Env α) (s : LigandFieldTheory α) : Option (List (List α)) :=
  construct_matrix
    [-8 * s.Dq - 5 * s.B, 2 * s.Dq + 4 * s.B]
    [((0, 1), 6 * s.B)]

/-- `d2.T_3_1_states` (matrices.py lines 126-131). -/
def T_3_1_states (e : Env α) (s : LigandFieldTheory α) : List α :=
  e.eig ((T_3_1_mat e s).getD [])

/-- `d2.solver` (matrices.py lines 133-162): `GS = self.T_3_1_states()[0]`,
three ligand-field independent singleton states, four diagonalized blocks,
all referenced to `GS`. -/
def solver (e : Env α) (s : LigandFieldTheory α) : List (String × List α) :=
  let GS := (T_3_1_states e s).getD 0 0
  let T_1_1 := [2 * s.Dq + 4 * s.B + 2 * s.C - GS]
  let T_3_2 := [2 * s.Dq - 8 * s.B - GS]
  let A_3_2 := [12 * s.Dq - 8 * s.B - GS]
  let A_1_1 := (A_1_1_states e s).map fun x => x - GS
  let E_1 := (E_1_states e s).map fun x => x - GS
  let T_1_2 := (T_1_2_states e s).map fun x => x - GS
  let T_3_1 := (T_3_1_states e s).map fun x => x - GS
  [("1_A_1", A_1_1),
   ("1_E", E_1),
   ("1_T_3", T_1_2),
   ("3_T_1", T_3_1),
   ("1_T_1", T_1_1),
   ("3_T_2", T_3_2),
   ("3_A_2", A_3_2)]

end d2

namespace d3

/-- Matrix of `d3.T_2_2_states` (matrices.py lines 179-200). -/
def T_2_2_mat (e : Env α) (s : LigandFieldTheory α) : Option (List (List α)) :=
  construct_matrix
    [-12 * s.Dq + 5 * s.C,
     -2 * s.Dq - 6 * s.B + 3 * s.C,
     -2 * s.Dq + 4 * s.B + 3 * s.C,
     8 * s.Dq + 6 * s.B + 5 * s.C,
     8 * s.Dq - 2 * s.B + 3 * s.C]
    [((0, 1), -_3sqrt3 e * s.B),
     ((0, 2), -5 * e._sqrt3 * s.B),
     ((0, 3), 4 * s.B + 2 * s.C),
     ((0, 4), 2 * s.B),
     ((1, 2), 3 * s.B),
     ((1, 3), -_3sqrt3 e * s.B),
     ((1, 4), -_3sqrt3 e * s.B),
     ((2, 3), -e._sqrt3 * s.B),
     ((2, 4), e._sqrt3 * s.B),
     ((3, 4), 10 * s.B)]

/-- `d3.T_2_2_states` (matrices.py lines 179-201). -/
def T_2_2_states (e : Env α) (s : LigandFieldTheory α) : List α :=
  e.eig ((T_2_2_mat e s).getD [])

/-- Matrix of `d3.T_2_1_states` (matrices.py lines 203-224). -/
def T_2_1_mat (e : Env α) (s : LigandFieldTheory α) : Option (List (List α)) :=
  construct_matrix
    [-12 * s.Dq - 6 * s.B + 3 * s.C,
     -2 * s.Dq + 3 * s.C,
     -2 * s.Dq - 6 * s.B + 3 * s.C,
     8 * s.Dq - 6 * s.B + 3 * s.C,
     8 * s.Dq - 2 * s.B + 3 * s.C]
    [((0, 1), -3 * s.B),
     ((0, 2), 3 * s.B),
     ((0, 3), 0),
     ((0, 4), -_2sqrt3 e * s.B),
     ((1, 2), -3 * s.B),
     ((1, 3), 3 * s.B),
     ((1, 4), _3sqrt3 e * s.B),
     ((2, 3), -3 * s.B),
     ((2, 4), -e._sqrt3 * s.B),
     ((3, 4), _2sqrt3 e * s.B)]

/-- `d3.T_2_1_states` (matrices.py lines 203-225). -/
def T_2_1_states (e : Env α) (s : LigandFieldTheory α) : List α :=
  e.eig ((T_2_1_mat e s).getD [])

/-- Matrix of `d3.E_2_states` (matrices.py lines 227-243). -/
def E_2_mat (e : Env α) (s : LigandFieldTheory α) : Option (List (List α)) :=
  construct_matrix
    [-12 * s.Dq - 6 * s.B + 3 * s.C,
     -2 * s.Dq + 8 * s.B + 6 * s.C,
     -2 * s.Dq - 1 * s.B + 3 * s.C,
     18 * s.Dq - 8 * s.B + 4 * s.C]
    [((0, 1), -6 * e._sqrt2 * s.B),
     ((0, 2), -_3sqrt2 e * s.B),
     ((0, 3), 0),
     ((1, 2), 10 * s.B),
     ((1, 3), e._sqrt3 * (2 * s.B + s.C)),
     ((2, 3), _2sqrt3 e * s.B)]

/-- `d3.E_2_states` (matrices.py lines 227-244). -/
def E_2_states (e : Env α) (s : LigandFieldTheory α) : List α :=
  e.eig ((E_2_mat e s).getD [])

/-- Matrix of `d3.T_4_1_states` (matrices.py lines 246-250). -/
def T_4_1_mat (e : Env α) (s : LigandFieldTheory α) : Option (List (List α)) :=
  construct_matrix
    [-2 * s.Dq - 3 * s.B, 8 * s.Dq - 12 * s.B]
    [((0, 1), 6 * s.B)]

/-- `d3.T_4_1_states` (matrices.py lines 246-251). -/
def T_4_1_states (e : Env α) (s : LigandFieldTheory α) : List α :=
  e.eig ((T_4_1_mat e s).getD [])

/-- `d3.solver` (matrices.py lines 253-285): `GS = np.array([-12 * Dq - 15 * B])`,
`A_4_2 = np.array([0])`, all other states referenced to `GS`; this solver has
no conditional re-referencing branch. -/
def solver (e : Env α) (s : LigandFieldTheory α) : List (String × List α) :=
  let GS := -12 * s.Dq - 15 * s.B
  let A_4_2 : List α := [0]
  let T_4_2 := [-2 * s.Dq - 15 * s.B - GS]
  let A_2_1 := [-2 * s.Dq - 11 * s.B + 3 * s.C - GS]
  let A_2_2 := [-2 * s.Dq + 9 * s.B + 3 * s.C - GS]
  let T_2_2 := (T_2_2_states e s).map fun x => x - GS
  let T_2_1 := (T_2_1_states e s).map fun x => x - GS
  let E_2 := (E_2_states e s).map fun x => x - GS
  let T_4_1 := (T_4_1_states e s).map fun x => x - GS
  [("2_T_2", T_2_2),
   ("2_T_1", T_2_1),
   ("2_E", E_2),
   ("4_T_1", T_4_1),
   ("4_A_2", A_4_2),
   ("4_T_2", T_4_2),
   ("2_A_1", A_2_1),
   ("2_A_2", A_2_2)]

end d3

namespace d4

/-- Matrix of `d4.T_3_1_states` (matrices.py lines 302-336). -/
def T_3_1_mat (e : Env α) (s : LigandFieldTheory α) : Option (List (List α)) :=
  construct_matrix
    [-16 * s.Dq - 15 * s.B + 5 * s.C,
     -6 * s.Dq - 11 * s.B + 4 * s.C,
     -6 * s.Dq - 3 * s.B + 6 * s.C,
     4 * s.Dq - s.B + 6 * s.C,
     4 * s.Dq - 9 * s.B + 4 * s.C,
     4 * s.Dq - 11 * s.B + 4 * s.C,
     14 * s.Dq - 16 * s.B + 5 * s.C]
    [((0, 1), -e._sqrt6 * s.B),
     ((0, 2), -_3sqrt2 e * s.B),
     ((0, 3), e._sqrt2 * (2 * s.B + s.C)),
     ((0, 4), -_2sqrt2 e * s.B),
     ((0, 5), 0),
     ((0, 6), 0),
     ((1, 2), 5 * e._sqrt3 * s.B),
     ((1, 3), e._sqrt3 * s.B),
     ((1, 4), -e._sqrt3 * s.B),
     ((1, 5), 3 * s.B),
     ((1, 6), e._sqrt6 * s.B),
     ((2, 3), -3 * s.B),
     ((2, 4), -3 * s.B),
     ((2, 5), 5 * e._sqrt3 * s.B),
     ((2, 6), e._sqrt2 * (s.B + s.C)),
     ((3, 4), -10 * s.B),
     ((3, 5), 0),
     ((3, 6), _3sqrt2 e * s.B),
     ((4, 5), -2 * e._sqrt3 * s.B),
     ((4, 6), -_3sqrt2 e * s.B),
     ((5, 6), e._sqrt6 * s.B)]

/-- `d4.T_3_1_states` (matrices.py lines 302-337). -/
def T_3_1_states (e : Env α) (s : LigandFieldTheory α) : List α :=
  e.eig ((T_3_1_mat e s).getD [])

/-- Matrix of `d4.T_1_2_states` (matrices.py lines 339-373). -/
def T_1_2_mat (e : Env α) (s : LigandFieldTheory α) : Option (List (List α)) :=
  construct_matrix
    [-16 * s.Dq - 9 * s.B + 7 * s.C,
     -6 * s.Dq - 9 * s.B + 6 * s.C,
     -6 * s.Dq + 3 * s.B + 8 * s.C,
     4 * s.Dq - 9 * s.B + 6 * s.C,
     4 * s.Dq - 3 * s.B + 6 * s.C,
     4 * s.Dq + 5 * s.B + 8 * s.C,
     14 * s.Dq + 7 * s.C]
    [((0, 1), _3sqrt2 e * s.B),
     ((0, 2), -5 * e._sqrt6 * s.B),
     ((0, 3), 0),
     ((0, 4), -_2sqrt2 e * s.B),
     ((0, 5), e._sqrt2 * (2 * s.B + s.C)),
     ((0, 6), 0),
     ((1, 2), -5 * e._sqrt3 * s.B),
     ((1, 3), 3 * s.B),
     ((1, 4), -3 * s.B),
     ((1, 5), -3 * s.B),
     ((1, 6), -e._sqrt6 * s.B),
     ((2, 3), -3 * e._sqrt3 * s.B),
     ((2, 4), 5 * e._sqrt3 * s.B),
     ((2, 5), -5 * e._sqrt3 * s.B),
     ((2, 6), e._sqrt2 * (3 * s.B + s.C)),
     ((3, 4), -6 * s.B),
     ((3, 5), 0),
     ((3, 6), -_3sqrt6 e * s.B),
     ((4, 5), -10 * s.B),
     ((4, 6), e._sqrt6 * s.B),
     ((5, 6), e._sqrt6 * s.B)]

/-- `d4.T_1_2_states` (matrices.py lines 339-374). -/
def T_1_2_states (e : Env α) (s : LigandFieldTheory α) : List α :=
  e.eig ((T_1_2_mat e s).getD [])

/-- Matrix of `d4.A_1_1_states` (matrices.py lines 376-397). -/
def A_1_1_mat (e : Env α) (s : LigandFieldTheory α) : Option (List (List α)) :=
  construct_matrix
    [-16 * s.Dq + 10 * s.C,
     -6 * s.Dq + 6 * s.C,
     4 * s.Dq + 14 * s.B + 11 * s.C,
     4 * s.Dq - 3 * s.B + 6 * s.C,
     24 * s.Dq - 16 * s.B + 8 * s.C]
    [((0, 1), -12 * e._sqrt2 * s.B),
     ((0, 2), e._sqrt2 * (4 * s.B + 2 * s.C)),
     ((0, 3), _2sqrt2 e * s.B),
     ((0, 4), 0),
     ((1, 2), -12 * s.B),
     ((1, 3), -6 * s.B),
     ((1, 4), 0),
     ((2, 3), 20 * s.B),
     ((2, 4), e._sqrt6 * (2 * s.B + s.C)),
     ((3, 4), 2 * e._sqrt6 * s.B)]

/-- `d4.A_1_1_states` (matrices.py lines 376-398). -/
def A_1_1_states (e : Env α) (s : LigandFieldTheory α) : List α :=
  e.eig ((A_1_1_mat e s).getD [])

/-- Matrix of `d4.E_1_1_states` (matrices.py lines 400-421). -/
def E_1_1_mat (e : Env α) (s : LigandFieldTheory α) : Option (List (List α)) :=
  construct_matrix
    [-16 * s.Dq - 9 * s.B + 7 * s.C,
     -6 * s.Dq - 6 * s.B + 6 * s.C,
     4 * s.Dq + 5 * s.B + 8 * s.C,
     4 * s.Dq + 6 * s.B + 9 * s.C,
     4 * s.Dq - 3 * s.B + 6 * s.C]
    [((0, 1), 6 * s.B),
     ((0, 2), e._sqrt2 * (2 * s.B + s.C)),
     ((0, 3), -2 * s.B),
     ((0, 4), -4 * s.B),
     ((1, 2), -_3sqrt2 e * s.B),
     ((1, 3), -12 * s.B),
     ((1, 4), 0),
     ((2, 3), 10 * e._sqrt2 * s.B),
     ((2, 4), -10 * e._sqrt2 * s.B),
     ((3, 4), 0)]

/-- `d4.E_1_1_states` (matrices.py lines 400-422). -/
def E_1_1_states (e : Env α) (s : LigandFieldTheory α) : List α :=
  e.eig ((E_1_1_mat e s).getD [])

/-- Matrix of `d4.T_3_2_states` (matrices.py lines 424-445). -/
def T_3_2_mat (e : Env α) (s : LigandFieldTheory α) : Option (List (List α)) :=
  construct_matrix
    [-6 * s.Dq - 9 * s.B + 4 * s.C,
     -6 * s.Dq - 5 * s.B + 6 * s.C,
     4 * s.Dq - 13 * s.B + 4 * s.C,
     4 * s.Dq - 9 * s.B + 4 * s.C,
     14 * s.Dq - 8 * s.B + 5 * s.C]
    [((0, 1), -5 * e._sqrt3 * s.B),
     ((0, 2), e._sqrt6 * s.B),
     ((0, 3), e._sqrt3 * s.B),
     ((0, 4), -e._sqrt6 * s.B),
     ((1, 2), -_3sqrt2 e * s.B),
     ((1, 3), 3 * s.B),
     ((1, 4), e._sqrt2 * (3 * s.B + s.C)),
     ((2, 3), -2 * e._sqrt2 * s.B),
     ((2, 4), -6 * s.B),
     ((3, 4), _3sqrt2 e * s.B)]

/-- `d4.T_3_2_states` (matrices.py lines 424-446). -/
def T_3_2_states (e : Env α) (s : LigandFieldTheory α) : List α :=
  e.eig ((T_3_2_mat e s).getD [])

/-- Matrix of `d4.T_1_1_states` (matrices.py lines 448-464). -/
def T_1_1_mat (e : Env α) (s : LigandFieldTheory α) : Option (List (List α)) :=
  construct_matrix
    [-6 * s.Dq - 3 * s.B + 6 * s.C,
     -6 * s.Dq - 3 * s.B + 8 * s.C,
     4 * s.Dq - 3 * s.B + 6 * s.C,
     14 * s.Dq - 16 * s.B + 7 * s.C]
    [((0, 1), 5 * e._sqrt3 * s.B),
     ((0, 2), 3 * s.B),
     ((0, 3), e._sqrt6 * s.B),
     ((1, 2), -5 * e._sqrt3 * s.B),
     ((1, 3), e._sqrt2 * (s.B + s.C)),
     ((2, 3), -e._sqrt6 * s.B)]

/-- `d4.T_1_1_states` (matrices.py lines 448-465). -/
def T_1_1_states (e : Env α) (s : LigandFieldTheory α) : List α :=
  e.eig ((T_1_1_mat e s).getD [])

/-- Matrix of `d4.E_3_1_states` (matrices.py lines 467-479). -/
def E_3_1_mat (e : Env α) (s : LigandFieldTheory α) : Option (List (List α)) :=
  construct_matrix
    [-6 * s.Dq - 13 * s.B + 4 * s.C,
     -6 * s.Dq - 10 * s.B + 4 * s.C,
     4 * s.Dq - 11 * s.B + 4 * s.C]
    [((0, 1), -4 * s.B),
     ((0, 2), 0),
     ((1, 2), -_3sqrt2 e * s.B)]

/-- `d4.E_3_1_states` (matrices.py lines 467-480). -/
def E_3_1_states (e : Env α) (s : LigandFieldTheory α) : List α :=
  e.eig ((E_3_1_mat e s).getD [])

/-- Matrix of `d4.A_3_2_states` (matrices.py lines 482-489). -/
def A_3_2_mat (e : Env α) (s : LigandFieldTheory α) : Option (List (List α)) :=
  construct_matrix
    [-6 * s.Dq - 8 * s.B + 4 * s.C,
     4 * s.Dq - 2 * s.B + 7 * s.C]
    [((0, 1), -12 * s.B)]

/-- `d4.A_3_2_states` (matrices.py lines 482-490). -/
def A_3_2_states (e : Env α) (s : LigandFieldTheory α) : List α :=
  e.eig ((A_3_2_mat e s).getD [])

/-- Matrix of `d4.A_1_2_states` (matrices.py lines 492-499). -/
def A_1_2_mat (e : Env α) (s : LigandFieldTheory α) : Option (List (List α)) :=
  construct_matrix
    [-6 * s.Dq - 12 * s.B + 6 * s.C,
     4 * s.Dq - 3 * s.B + 6 * s.C]
    [((0, 1), 6 * s.B)]

/-- `d4.A_1_2_states` (matrices.py lines 492-500). -/
def A_1_2_states (e : Env α) (s : LigandFieldTheory α) : List α :=
  e.eig ((A_1_2_mat e s).getD [])

/-- `d4.solver` (matrices.py lines 502-556): `GS = np.array([-6 * Dq - 21 * B])`,
`E_5_1 = np.array([0])`, nine diagonalized blocks referenced to `GS`, and a
conditional second re-referencing of every state by `T_3_1[0]` when
`T_3_1[0] <= 0`. -/
def solver (e : Env α) (s : LigandFieldTheory α) : List (String × List α) :=
  let GS := -6 * s.Dq - 21 * s.B
  let E_5_1 : List α := [0]
  let T_5_2 := [4 * s.Dq - 21 * s.B - GS]
  let A_3_1 := [-6 * s.Dq - 12 * s.B + 4 * s.C - GS]
  let T_1_2 := (T_1_2_states e s).map fun x => x - GS
  let T_3_1 := (T_3_1_states e s).map fun x => x - GS
  let A_1_1 := (A_1_1_states e s).map fun x => x - GS
  let E_1_1 := (E_1_1_states e s).map fun x => x - GS
  let T_3_2 := (T_3_2_states e s).map fun x => x - GS
  let T_1_1 := (T_1_1_states e s).map fun x => x - GS
  let E_3_1 := (E_3_1_states e s).map fun x => x - GS
  let A_3_2 := (A_3_2_states e s).map fun x => x - GS
  let A_1_2 := (A_1_2_states e s).map fun x => x - GS
  if T_3_1.getD 0 0 ≤ 0 then
    let t := T_3_1.getD 0 0
    [("3_T_1", T_3_1.map fun x => x - t),
     ("1_T_2", T_1_2.map fun x => x - t),
     ("1_A_1", A_1_1.map fun x => x - t),
     ("1_E_1", E_1_1.map fun x => x - t),
     ("3_T_2", T_3_2.map fun x => x - t),
     ("1_T_1", T_1_1.map fun x => x - t),
     ("3_E_1", E_3_1.map fun x => x - t),
     ("3_A_2", A_3_2.map fun x => x - t),
     ("1_A_2", A_1_2.map fun x => x - t),
     ("5_E_1", E_5_1.map fun x => x - t),
     ("5_T_2", T_5_2.map fun x => x - t),
     ("3_A_1", A_3_1.map fun x => x - t)]
  else
    [("3_T_1", T_3_1),
     ("1_T_2", T_1_2),
     ("1_A_1", A_1_1),
     ("1_E_1", E_1_1),
     ("3_T_2", T_3_2),
     ("1_T_1", T_1_1),
     ("3_E_1", E_3_1),
     ("3_A_2", A_3_2),
     ("1_A_2", A_1_2),
     ("5_E_1", E_5_1),
     ("5_T_2", T_5_2),
     ("3_A_1", A_3_1)]

end d4

namespace d5

/-- Matrix of `d5.T_2_2_states` (matrices.py lines 573-634). -/
def T_2_2_mat (e : Env α) (s : LigandFieldTheory α) : Option (List (List α)) :=
  construct_matrix
    [-20 * s.Dq - 20 * s.B + 10 * s.C,
     -10 * s.Dq - 8 * s.B + 9 * s.C,
     -10 * s.Dq - 18 * s.B + 9 * s.C,
     -16 * s.B + 8 * s.C,
     -12 * s.B + 8 * s.C,
     2 * s.B + 12 * s.C,
     -6 * s.B + 10 * s.C,
     10 * s.Dq - 18 * s.B + 9 * s.C,
     10 * s.Dq - 8 * s.B + 9 * s.C,
     20 * s.Dq - 20 * s.B + 10 * s.C]
    [((0, 1), _3sqrt6 e * s.B),
     ((0, 2), e._sqrt6 * s.B),
     ((0, 3), 0),
     ((0, 4), -2 * e._sqrt3 * s.B),
     ((0, 5), 4 * s.B + 2 * s.C),
     ((0, 6), 2 * s.B),
     ((0, 7), 0),
     ((0, 8), 0),
     ((0, 9), 0),
     ((1, 2), 3 * s.B),
     ((1, 3), e._sqrt6 / 2 * s.B),
     ((1, 4), -_3sqrt2 e / 2 * s.B),
     ((1, 5), _3sqrt6 e / 2 * s.B),
     ((1, 6), _3sqrt6 e / 2 * s.B),
     ((1, 7), 0),
     ((1, 8), 4 * s.B + s.C),
     ((1, 9), 0),
     ((2, 3), _3sqrt6 e / 2 * s.B),
     ((2, 4), -_3sqrt2 e / 2 * s.B),
     ((2, 5), 5 * e._sqrt6 / 2 * s.B),
     ((2, 6), -5 * e._sqrt6 / 2 * s.B),
     ((2, 7), s.C),
     ((2, 8), 0),
     ((2, 9), 0),
     ((3, 4), 2 * e._sqrt3 * s.B),
     ((3, 5), 0),
     ((3, 6), 0),
     ((3, 7), -_3sqrt6 e / 2 * s.B),
     ((3, 8), -e._sqrt6 / 2 * s.B),
     ((3, 9), 0),
     ((4, 5), -10 * e._sqrt3 * s.B),
     ((4, 6), 0),
     ((4, 7), _3sqrt2 e / 2 * s.B),
     ((4, 8), _3sqrt2 e / 2 * s.B),
     ((4, 9), -2 * e._sqrt3 * s.B),
     ((5, 6), 0),
     ((5, 7), -5 * e._sqrt6 / 2 * s.B),
     ((5, 8), -_3sqrt6 e / 2 * s.B),
     ((5, 9), 4 * s.B + 2 * s.C),
     ((6, 7), -5 * e._sqrt6 / 2 * s.B),
     ((6, 8), _3sqrt6 e / 2 * s.B),
     ((6, 9), -2 * s.B),
     ((7, 8), 3 * s.B),
     ((7, 9), -e._sqrt6 * s.B),
     ((8, 9), -_3sqrt6 e * s.B)]

/-- `d5.T_2_2_states` (matrices.py lines 573-635). -/
def T_2_2_states (e : Env α) (s : LigandFieldTheory α) : List α :=
  e.eig ((T_2_2_mat e s).getD [])

/-- Matrix of `d5.T_2_1_states` (matrices.py lines 637-679). -/
def T_2_1_mat (e : Env α) (s : LigandFieldTheory α) : Option (List (List α)) :=
  construct_matrix
    [-10 * s.Dq - 22 * s.B + 9 * s.C,
     -10 * s.Dq - 8 * s.B + 9 * s.C,
     -4 * s.B + 10 * s.C,
     -12 * s.B + 8 * s.C,
     -10 * s.B + 10 * s.C,
     -6 * s.B + 10 * s.C,
     10 * s.Dq - 8 * s.B + 9 * s.C,
     10 * s.Dq - 22 * s.B + 9 * s.C]
    [((0, 1), -3 * s.B),
     ((0, 2), -_3sqrt2 e / 2 * s.B),
     ((0, 3), _3sqrt2 e / 2 * s.B),
     ((0, 4), -_3sqrt2 e / 2 * s.B),
     ((0, 5), -_3sqrt6 e / 2 * s.B),
     ((0, 6), 0),
     ((0, 7), s.C),
     ((1, 2), _3sqrt2 e / 2 * s.B),
     ((1, 3), _3sqrt2 e / 2 * s.B),
     ((1, 4), 15 * e._sqrt2 / 2 * s.B),
     ((1, 5), 5 * e._sqrt6 / 2 * s.B),
     ((1, 6), 4 * s.B + s.C),
     ((1, 7), 0),
     ((2, 3), 0),
     ((2, 4), 0),
     ((2, 5), 10 * e._sqrt3 * s.B),
     ((2, 6), _3sqrt2 e / 2 * s.B),
     ((2, 7), -_3sqrt2 e / 2 * s.B),
     ((3, 4), 0),
     ((3, 5), 0),
     ((3, 6), -_3sqrt2 e / 2 * s.B),
     ((3, 7), -_3sqrt2 e / 2 * s.B),
     ((4, 5), 2 * e._sqrt3 * s.B),
     ((4, 6), 15 * e._sqrt2 / 2 * s.B),
     ((4, 7), -_3sqrt2 e / 2 * s.B),
     ((5, 6), 5 * e._sqrt6 / 2 * s.B),
     ((5, 7), -_3sqrt6 e / 2 * s.B),
     ((6, 7), -3 * s.B)]

/-- `d5.T_2_1_states` (matrices.py lines 637-680). -/
def T_2_1_states (e : Env α) (s : LigandFieldTheory α) : List α :=
  e.eig ((T_2_1_mat e s).getD [])

/-- Matrix of `d5.E_2_states` (matrices.py lines 682-716). -/
def E_2_mat (e : Env α) (s : LigandFieldTheory α) : Option (List (List α)) :=
  construct_matrix
    [-10 * s.Dq - 4 * s.B + 12 * s.C,
     -10 * s.Dq - 13 * s.B + 9 * s.C,
     -4 * s.B + 10 * s.C,
     -16 * s.B + 8 * s.C,
     -12 * s.B + 8 * s.C,
     10 * s.Dq - 13 * s.B + 9 * s.C,
     10 * s.Dq - 4 * s.B + 12 * s.C]
    [((0, 1), 10 * s.B),
     ((0, 2), 6 * s.B),
     ((0, 3), 6 * e._sqrt3 * s.B),
     ((0, 4), 6 * e._sqrt2 * s.B),
     ((0, 5), -2 * s.B),
     ((0, 6), 4 * s.B + 2 * s.C),
     ((1, 2), -3 * s.B),
     ((1, 3), 3 * e._sqrt3 * s.B),
     ((1, 4), 0),
     ((1, 5), 2 * s.B + s.C),
     ((1, 6), 2 * s.B),
     ((2, 3), 0),
     ((2, 4), 0),
     ((2, 5), -3 * s.B),
     ((2, 6), -6 * s.B),
     ((3, 4), 2 * e._sqrt6 * s.B),
     ((3, 5), -3 * e._sqrt3 * s.B),
     ((3, 6), 6 * e._sqrt3 * s.B),
     ((4, 5), 0),
     ((4, 6), 6 * e._sqrt2 * s.B),
     ((5, 6), -10 * s.B)]

/-- `d5.E_2_states` (matrices.py lines 682-717). -/
def E_2_states (e : Env α) (s : LigandFieldTheory α) : List α :=
  e.eig ((E_2_mat e s).getD [])

/-- Matrix of `d5.A_2_1_states` (matrices.py lines 719-735). -/
def A_2_1_mat (e : Env α) (s : LigandFieldTheory α) : Option (List (List α)) :=
  construct_matrix
    [-10 * s.Dq - 3 * s.B + 9 * s.C,
     -12 * s.B + 8 * s.C,
     -19 * s.B + 8 * s.C,
     10 * s.Dq - 3 * s.B + 9 * s.C]
    [((0, 1), -_3sqrt2 e * s.B),
     ((0, 2), 0),
     ((0, 3), 6 * s.B + s.C),
     ((1, 2), -4 * e._sqrt3 * s.B),
     ((1, 3), _3sqrt2 e * s.B),
     ((2, 3), 0)]

/-- `d5.A_2_1_states` (matrices.py lines 719-736). -/
def A_2_1_states (e : Env α) (s : LigandFieldTheory α) : List α :=
  e.eig ((A_2_1_mat e s).getD [])

/-- Matrix of `d5.A_2_2_states` (matrices.py lines 738-750). -/
def A_2_2_mat (e : Env α) (s : LigandFieldTheory α) : Option (List (List α)) :=
  construct_matrix
    [-10 * s.Dq - 23 * s.B + 9 * s.C,
     -12 * s.B + 8 * s.C,
     10 * s.Dq - 23 * s.B + 9 * s.C]
    [((0, 1), _3sqrt2 e * s.B),
     ((0, 2), -2 * s.B + s.C),
     ((1, 2), -_3sqrt2 e * s.B)]

/-- `d5.A_2_2_states` (matrices.py lines 738-751). -/
def A_2_2_states (e : Env α) (s : LigandFieldTheory α) : List α :=
  e.eig ((A_2_2_mat e s).getD [])

/-- Matrix of `d5.T_4_1_states` (matrices.py lines 753-765). -/
def T_4_1_mat (e : Env α) (s : LigandFieldTheory α) : Option (List (List α)) :=
  construct_matrix
    [-10 * s.Dq - 25 * s.B + 6 * s.C,
     -16 * s.B + 7 * s.C,
     10 * s.Dq - 25 * s.B + 6 * s.C]
    [((0, 1), -_3sqrt2 e * s.B),
     ((0, 2), s.C),
     ((1, 2), -_3sqrt2 e * s.B)]

/-- `d5.T_4_1_states` (matrices.py lines 753-766). -/
def T_4_1_states (e : Env α) (s : LigandFieldTheory α) : List α :=
  e.eig ((T_4_1_mat e s).getD [])

/-- Matrix of `d5.T_4_2_states` (matrices.py lines 768-781). -/
def T_4_2_mat (e : Env α) (s : LigandFieldTheory α) : Option (List (List α)) :=
  construct_matrix
    [-10 * s.Dq - 17 * s.B + 6 * s.C,
     -22 * s.B + 5 * s.C,
     10 * s.Dq - 17 * s.B + 6 * s.C]
    [((0, 1), e._sqrt6 * s.B),
     ((0, 2), 4 * s.B + s.C),
     ((1, 2), -e._sqrt6 * s.B)]

/-- `d5.T_4_2_states` (matrices.py lines 768-781). -/
def T_4_2_states (e : Env α) (s : LigandFieldTheory α) : List α :=
  e.eig ((T_4_2_mat e s).getD [])

/-- Matrix of `d5.E_4_states` (matrices.py lines 783-788). -/
def E_4_mat (e : Env α) (s : LigandFieldTheory α) : Option (List (List α)) :=
  construct_matrix
    [-22 * s.B + 5 * s.C, -21 * s.B + 5 * s.C]
    [((0, 1), -2 * e._sqrt3 * s.B)]

/-- `d5.E_4_states` (matrices.py lines 783-788). -/
def E_4_states (e : Env α) (s : LigandFieldTheory α) : List α :=
  e.eig ((E_4_mat e s).getD [])

/-- `d5.solver` (matrices.py lines 790-844): `GS = -35 * B` (scalar),
`A_6_1 = np.array([0.0])`, seven diagonalized blocks referenced to `GS`,
and a conditional second re-referencing of every state by `T_2_2[0]` when
`T_2_2[0] <= 0`. -/
def solver (e : Env α) (s : LigandFieldTheory α) : List (String × List α) :=
  let GS := -35 * s.B
  let A_6_1 : List α := [0]
  let E_4 := (E_4_states e s).map fun x => x - GS
  let A_4_1 := [-25 * s.B + 5 * s.C - GS]
  let A_4_2 := [-13 * s.B + 7 * s.C - GS]
  let T_2_2 := (T_2_2_states e s).map fun x => x - GS
  let T_2_1 := (T_2_1_states e s).map fun x => x - GS
  let E_2 := (E_2_states e s).map fun x => x - GS
  let A_2_1 := (A_2_1_states e s).map fun x => x - GS
  let A_2_2 := (A_2_2_states e s).map fun x => x - GS
  let T_4_1 := (T_4_1_states e s).map fun x => x - GS
  let T_4_2 := (T_4_2_states e s).map fun x => x - GS
  if T_2_2.getD 0 0 ≤ 0 then
    let t := T_2_2.getD 0 0
    [("2_T_2", T_2_2.map fun x => x - t),
     ("2_T_1", T_2_1.map fun x => x - t),
     ("2_E", E_2.map fun x => x - t),
     ("2_A_1", A_2_1.map fun x => x - t),
     ("2_A_2", A_2_2.map fun x => x - t),
     ("4_T_1", T_4_1.map fun x => x - t),
     ("4_T_2", T_4_2.map fun x => x - t),
     ("4_E", E_4.map fun x => x - t),
     ("6_A_1", A_6_1.map fun x => x - t),
     ("4_A_1", A_4_1.map fun x => x - t),
     ("4_A_2", A_4_2.map fun x => x - t)]
  else
    [("2_T_2", T_2_2),
     ("2_T_1", T_2_1),
     ("2_E", E_2),
     ("2_A_1", A_2_1),
     ("2_A_2", A_2_2),
     ("4_T_1", T_4_1),
     ("4_T_2", T_4_2),
     ("4_E", E_4),
     ("6_A_1", A_6_1),
     ("4_A_1", A_4_1),
     ("4_A_2", A_4_2)]

end d5

namespace d6

/-- Matrix of `d6.T_3_1_states` (matrices.py lines 861-895). -/
def T_3_1_mat (e : Env α) (s : LigandFieldTheory α) : Option (List (List α)) :=
  construct_matrix
    [16 * s.Dq - 15 * s.B + 5 * s.C,
     6 * s.Dq - 11 * s.B + 4 * s.C,
     6 * s.Dq - 3 * s.B + 6 * s.C,
     -4 * s.Dq - s.B + 6 * s.C,
     -4 * s.Dq - 9 * s.B + 4 * s.C,
     -4 * s.Dq - 11 * s.B + 4 * s.C,
     -14 * s.Dq - 16 * s.B + 5 * s.C]
    [((0, 1), -e._sqrt6 * s.B),
     ((0, 2), -_3sqrt2 e * s.B),
     ((0, 3), e._sqrt2 * (2 * s.B + s.C)),
     ((0, 4), -_2sqrt2 e * s.B),
     ((0, 5), 0),
     ((0, 6), 0),
     ((1, 2), 5 * e._sqrt3 * s.B),
     ((1, 3), e._sqrt3 * s.B),
     ((1, 4), -e._sqrt3 * s.B),
     ((1, 5), 3 * s.B),
     ((1, 6), e._sqrt6 * s.B),
     ((2, 3), -3 * s.B),
     ((2, 4), -3 * s.B),
     ((2, 5), 5 * e._sqrt3 * s.B),
     ((2, 6), e._sqrt2 * (s.B + s.C)),
     ((3, 4), -10 * s.B),
     ((3, 5), 0),
     ((3, 6), _3sqrt2 e * s.B),
     ((4, 5), -2 * e._sqrt3 * s.B),
     ((4, 6), -_3sqrt2 e * s.B),
     ((5, 6), e._sqrt6 * s.B)]

/-- `d6.T_3_1_states` (matrices.py lines 861-896). -/
def T_3_1_states (e : Env α) (s : LigandFieldTheory α) : List α :=
  e.eig ((T_3_1_mat e s).getD [])

/-- Matrix of `d6.T_1_2_states` (matrices.py lines 898-932). -/
def T_1_2_mat (e : Env α) (s : LigandFieldTheory α) : Option (List (List α)) :=
  construct_matrix
    [16 * s.Dq - 9 * s.B + 7 * s.C,
     6 * s.Dq - 9 * s.B + 6 * s.C,
     6 * s.Dq + 3 * s.B + 8 * s.C,
     -4 * s.Dq - 9 * s.B + 6 * s.C,
     -4 * s.Dq - 3 * s.B + 6 * s.C,
     -4 * s.Dq + 5 * s.B + 8 * s.C,
     -14 * s.Dq + 7 * s.C]
    [((0, 1), _3sqrt2 e * s.B),
     ((0, 2), -5 * e._sqrt6 * s.B),
     ((0, 3), 0),
     ((0, 4), -_2sqrt2 e * s.B),
     ((0, 5), e._sqrt2 * (2 * s.B + s.C)),
     ((0, 6), 0),
     ((1, 2), -5 * e._sqrt3 * s.B),
     ((1, 3), 3 * s.B),
     ((1, 4), -3 * s.B),
     ((1, 5), -3 * s.B),
     ((1, 6), -e._sqrt6 * s.B),
     ((2, 3), -3 * e._sqrt3 * s.B),
     ((2, 4), 5 * e._sqrt3 * s.B),
     ((2, 5), -5 * e._sqrt3 * s.B),
     ((2, 6), e._sqrt2 * (3 * s.B + s.C)),
     ((3, 4), -6 * s.B),
     ((3, 5), 0),
     ((3, 6), -_3sqrt6 e * s.B),
     ((4, 5), -10 * s.B),
     ((4, 6), e._sqrt6 * s.B),
     ((5, 6), e._sqrt6 * s.B)]

/-- `d6.T_1_2_states` (matrices.py lines 898-933). -/
def T_1_2_states (e : Env α) (s : LigandFieldTheory α) : List α :=
  e.eig ((T_1_2_mat e s).getD [])

/-- Matrix of `d6.A_1_1_states` (matrices.py lines 935-956). -/
def A_1_1_mat (e : Env α) (s : LigandFieldTheory α) : Option (List (List α)) :=
  construct_matrix
    [16 * s.Dq + 10 * s.C,
     6 * s.Dq + 6 * s.C,
     -4 * s.Dq + 14 * s.B + 11 * s.C,
     -4 * s.Dq - 3 * s.B + 6 * s.C,
     -24 * s.Dq - 16 * s.B + 8 * s.C]
    [((0, 1), -12 * e._sqrt2 * s.B),
     ((0, 2), e._sqrt2 * (4 * s.B + 2 * s.C)),
     ((0, 3), _2sqrt2 e * s.B),
     ((0, 4), 0),
     ((1, 2), -12 * s.B),
     ((1, 3), -6 * s.B),
     ((1, 4), 0),
     ((2, 3), 20 * s.B),
     ((2, 4), e._sqrt6 * (2 * s.B + s.C)),
     ((3, 4), 2 * e._sqrt6 * s.B)]

/-- `d6.A_1_1_states` (matrices.py lines 935-957). -/
def A_1_1_states (e : Env α) (s : LigandFieldTheory α) : List α :=
  e.eig ((A_1_1_mat e s).getD [])

/-- Matrix of `d6.E_1_1_states` (matrices.py lines 959-980). -/
def E_1_1_mat (e : Env α) (s : LigandFieldTheory α) : Option (List (List α)) :=
  construct_matrix
    [16 * s.Dq - 9 * s.B + 7 * s.C,
     6 * s.Dq - 6 * s.B + 6 * s.C,
     -4 * s.Dq + 5 * s.B + 8 * s.C,
     -4 * s.Dq + 6 * s.B + 9 * s.C,
     -4 * s.Dq - 3 * s.B + 6 * s.C]
    [((0, 1), 6 * s.B),
     ((0, 2), e._sqrt2 * (2 * s.B + s.C)),
     ((0, 3), -2 * s.B),
     ((0, 4), -4 * s.B),
     ((1, 2), -_3sqrt2 e * s.B),
     ((1, 3), -12 * s.B),
     ((1, 4), 0),
     ((2, 3), 10 * e._sqrt2 * s.B),
     ((2, 4), -10 * e._sqrt2 * s.B),
     ((3, 4), 0)]

/-- `d6.E_1_1_states` (matrices.py lines 959-981). -/
def E_1_1_states (e : Env α) (s : LigandFieldTheory α) : List α :=
  e.eig ((E_1_1_mat e s).getD [])

/-- Matrix of `d6.T_3_2_states` (matrices.py lines 983-1004). -/
def T_3_2_mat (e : Env α) (s : LigandFieldTheory α) : Option (List (List α)) :=
  construct_matrix
    [6 * s.Dq - 9 * s.B + 4 * s.C,
     6 * s.Dq - 5 * s.B + 6 * s.C,
     -4 * s.Dq - 13 * s.B + 4 * s.C,
     -4 * s.Dq - 9 * s.B + 4 * s.C,
     -14 * s.Dq - 8 * s.B + 5 * s.C]
    [((0, 1), -5 * e._sqrt3 * s.B),
     ((0, 2), e._sqrt6 * s.B),
     ((0, 3), e._sqrt3 * s.B),
     ((0, 4), -e._sqrt6 * s.B),
     ((1, 2), -_3sqrt2 e * s.B),
     ((1, 3), 3 * s.B),
     ((1, 4), e._sqrt2 * (3 * s.B + s.C)),
     ((2, 3), -2 * e._sqrt2 * s.B),
     ((2, 4), -6 * s.B),
     ((3, 4), 3 * e._sqrt2 * s.B)]

/-- `d6.T_3_2_states` (matrices.py lines 983-1005). -/
def T_3_2_states (e : Env α) (s : LigandFieldTheory α) : List α :=
  e.eig ((T_3_2_mat e s).getD [])

/-- Matrix of `d6.T_1_1_states` (matrices.py lines 1007-1023). -/
def T_1_1_mat (e : Env α) (s : LigandFieldTheory α) : Option (List (List α)) :=
  construct_matrix
    [6 * s.Dq - 3 * s.B + 6 * s.C,
     6 * s.Dq - 3 * s.B + 8 * s.C,
     -4 * s.Dq - 3 * s.B + 6 * s.C,
     -14 * s.Dq - 16 * s.B + 7 * s.C]
    [((0, 1), 5 * e._sqrt3 * s.B),
     ((0, 2), 3 * s.B),
     ((0, 3), e._sqrt6 * s.B),
     ((1, 2), -5 * e._sqrt3 * s.B),
     ((1, 3), e._sqrt2 * (s.B + s.C)),
     ((2, 3), -e._sqrt6 * s.B)]

/-- `d6.T_1_1_states` (matrices.py lines 1007-1024). -/
def T_1_1_states (e : Env α) (s : LigandFieldTheory α) : List α :=
  e.eig ((T_1_1_mat e s).getD [])

/-- Matrix of `d6.E_3_1_states` (matrices.py lines 1026-1039). -/
def E_3_1_mat (e : Env α) (s : LigandFieldTheory α) : Option (List (List α)) :=
  construct_matrix
    [6 * s.Dq - 13 * s.B + 4 * s.C,
     6 * s.Dq - 10 * s.B + 4 * s.C,
     -4 * s.Dq - 11 * s.B + 4 * s.C]
    [((0, 1), -4 * s.B),
     ((0, 2), 0),
     ((1, 2), -_3sqrt2 e * s.B)]

/-- `d6.E_3_1_states` (matrices.py lines 1026-1039). -/
def E_3_1_states (e : Env α) (s : LigandFieldTheory α) : List α :=
  e.eig ((E_3_1_mat e s).getD [])

/-- Matrix of `d6.A_3_2_states` (matrices.py lines 1041-1049). -/
def A_3_2_mat (e : Env α) (s : LigandFieldTheory α) : Option (List (List α)) :=
  construct_matrix
    [6 * s.Dq - 8 * s.B + 4 * s.C,
     -4 * s.Dq - 2 * s.B + 7 * s.C]
    [((0, 1), -12 * s.B)]

/-- `d6.A_3_2_states` (matrices.py lines 1041-1049). -/
def A_3_2_states (e : Env α) (s : LigandFieldTheory α) : List α :=
  e.eig ((A_3_2_mat e s).getD [])

/-- Matrix of `d6.A_1_2_states` (matrices.py lines 1051-1059). -/
def A_1_2_mat (e : Env α) (s : LigandFieldTheory α) : Option (List (List α)) :=
  construct_matrix
    [6 * s.Dq - 12 * s.B + 6 * s.C,
     -4 * s.Dq - 3 * s.B + 6 * s.C]
    [((0, 1), 6 * s.B)]

/-- `d6.A_1_2_states` (matrices.py lines 1051-1059). -/
def A_1_2_states (e : Env α) (s : LigandFieldTheory α) : List α :=
  e.eig ((A_1_2_mat e s).getD [])

/-- `d6.solver` (matrices.py lines 1061-1117): `GS = np.array([-4 * Dq - 21 * B])`,
`T_5_2 = np.array([0])`, nine diagonalized blocks referenced as `-GS + states`,
and a conditional second re-referencing of every state by `A_1_1[0]` when
`A_1_1[0] <= ENERGY_TOLERANCE`. -/
def solver (e : Env α) (s : LigandFieldTheory α) : List (String × List α) :=
  let GS := -4 * s.Dq - 21 * s.B
  let T_5_2 : List α := [0]
  let E_5_1 := [6 * s.Dq - 21 * s.B - GS]
  let A_3_1 := [6 * s.Dq - 12 * s.B + 4 * s.C - GS]
  let T_1_2 := (T_1_2_states e s).map fun x => -GS + x
  let T_3_1 := (T_3_1_states e s).map fun x => -GS + x
  let A_1_1 := (A_1_1_states e s).map fun x => -GS + x
  let E_1_1 := (E_1_1_states e s).map fun x => -GS + x
  let T_3_2 := (T_3_2_states e s).map fun x => -GS + x
  let T_1_1 := (T_1_1_states e s).map fun x => -GS + x
  let E_3_1 := (E_3_1_states e s).map fun x => -GS + x
  let A_3_2 := (A_3_2_states e s).map fun x => -GS + x
  let A_1_2 := (A_1_2_states e s).map fun x => -GS + x
  if A_1_1.getD 0 0 ≤ ENERGY_TOLERANCE α then
    let t := A_1_1.getD 0 0
    [("3_T_1", T_3_1.map fun x => x - t),
     ("1_T_2", T_1_2.map fun x => x - t),
     ("1_A_1", A_1_1.map fun x => x - t),
     ("1_E_1", E_1_1.map fun x => x - t),
     ("3_T_2", T_3_2.map fun x => x - t),
     ("1_T_1", T_1_1.map fun x => x - t),
     ("3_E_1", E_3_1.map fun x => x - t),
     ("3_A_2", A_3_2.map fun x => x - t),
     ("1_A_2", A_1_2.map fun x => x - t),
     ("5_E_1", E_5_1.map fun x => x - t),
     ("5_T_2", T_5_2.map fun x => x - t),
     ("3_A_1", A_3_1.map fun x => x - t)]
  else
    [("3_T_1", T_3_1),
     ("1_T_2", T_1_2),
     ("1_A_1", A_1_1),
     ("1_E_1", E_1_1),
     ("3_T_2", T_3_2),
     ("1_T_1", T_1_1),
     ("3_E_1", E_3_1),
     ("3_A_2", A_3_2),
     ("1_A_2", A_1_2),
     ("5_E_1", E_5_1),
     ("5_T_2", T_5_2),
     ("3_A_1", A_3_1)]

end d6

namespace d7

/-- Matrix of `d7.T_2_2_states` (matrices.py lines 1134-1155). -/
def T_2_2_mat (e : Env α) (s : LigandFieldTheory α) : Option (List (List α)) :=
  construct_matrix
    [12 * s.Dq + 5 * s.C,
     2 * s.Dq - 6 * s.B + 3 * s.C,
     2 * s.Dq + 4 * s.B + 3 * s.C,
     -8 * s.Dq + 6 * s.B + 5 * s.C,
     -8 * s.Dq - 2 * s.B + 3 * s.C]
    [((0, 1), -_3sqrt3 e * s.B),
     ((0, 2), -5 * e._sqrt3 * s.B),
     ((0, 3), 4 * s.B + 2 * s.C),
     ((0, 4), 2 * s.B),
     ((1, 2), 3 * s.B),
     ((1, 3), -_3sqrt3 e * s.B),
     ((1, 4), -_3sqrt3 e * s.B),
     ((2, 3), -e._sqrt3 * s.B),
     ((2, 4), e._sqrt3 * s.B),
     ((3, 4), 10 * s.B)]

/-- `d7.T_2_2_states` (matrices.py lines 1134-1156). -/
def T_2_2_states (e : Env α) (s : LigandFieldTheory α) : List α :=
  e.eig ((T_2_2_mat e s).getD [])

/-- Matrix of `d7.T_2_1_states` (matrices.py lines 1158-1180). -/
def T_2_1_mat (e : Env α) (s : LigandFieldTheory α) : Option (List (List α)) :=
  construct_matrix
    [12 * s.Dq - 6 * s.B + 3 * s.C,
     2 * s.Dq + 3 * s.C,
     2 * s.Dq - 6 * s.B + 3 * s.C,
     -8 * s.Dq - 6 * s.B + 3 * s.C,
     -8 * s.Dq - 2 * s.B + 3 * s.C]
    [((0, 1), -3 * s.B),
     ((0, 2), 3 * s.B),
     ((0, 3), 0),
     ((0, 4), -_2sqrt3 e * s.B),
     ((1, 2), -3 * s.B),
     ((1, 3), 3 * s.B),
     ((1, 4), _3sqrt3 e * s.B),
     ((2, 3), -3 * s.B),
     ((2, 4), -e._sqrt3 * s.B),
     ((3, 4), _2sqrt3 e * s.B)]

/-- `d7.T_2_1_states` (matrices.py lines 1158-1180). -/
def T_2_1_states (e : Env α) (s : LigandFieldTheory α) : List α :=
  e.eig ((T_2_1_mat e s).getD [])

/-- Matrix of `d7.E_2_states` (matrices.py lines 1182-1199). -/
def E_2_mat (e : Env α) (s : LigandFieldTheory α) : Option (List (List α)) :=
  construct_matrix
    [12 * s.Dq - 6 * s.B + 3 * s.C,
     2 * s.Dq + 8 * s.B + 6 * s.C,
     2 * s.Dq - 1 * s.B + 3 * s.C,
     -18 * s.Dq - 8 * s.B + 4 * s.C]
    [((0, 1), -6 * e._sqrt2 * s.B),
     ((0, 2), -_3sqrt2 e * s.B),
     ((0, 3), 0),
     ((1, 2), 10 * s.B),
     ((1, 3), e._sqrt3 * (2 * s.B + s.C)),
     ((2, 3), _2sqrt3 e * s.B)]

/-- `d7.E_2_states` (matrices.py lines 1182-1199). -/
def E_2_states (e : Env α) (s : LigandFieldTheory α) : List α :=
  e.eig ((E_2_mat e s).getD [])

/-- Matrix of `d7.T_4_1_states` (matrices.py lines 1201-1206). -/
def T_4_1_mat (e : Env α) (s : LigandFieldTheory α) : Option (List (List α)) :=
  construct_matrix
    [2 * s.Dq - 3 * s.B, -8 * s.Dq - 12 * s.B]
    [((0, 1), 6 * s.B)]

/-- `d7.T_4_1_states` (matrices.py lines 1201-1206). -/
def T_4_1_states (e : Env α) (s : LigandFieldTheory α) : List α :=
  e.eig ((T_4_1_mat e s).getD [])

/-- `d7.solver` (matrices.py lines 1208-1258): the ground state is
`GS = T_4_1[0]`; `T_4_1[0]` is overwritten with `0`, the singleton states and
the diagonalized blocks are referenced to `GS`, `T_4_1[1] -= GS`, and a
conditional second re-referencing of every state by `E_2[0]` happens when
`E_2[0] <= 0`. -/
def solver (e : Env α) (s : LigandFieldTheory α) : List (String × List α) :=
  let T_4_1 := T_4_1_states e s
  let GS := T_4_1.getD 0 0
  let T_4_1 := T_4_1.set 0 0
  let A_4_2 := [12 * s.Dq - 15 * s.B - GS]
  let T_4_2 := [2 * s.Dq - 15 * s.B - GS]
  let A_2_1 := [2 * s.Dq - 11 * s.B + 3 * s.C - GS]
  let A_2_2 := [2 * s.Dq + 9 * s.B + 3 * s.C - GS]
  let T_2_2 := (T_2_2_states e s).map fun x => x - GS
  let T_2_1 := (T_2_1_states e s).map fun x => x - GS
  let E_2 := (E_2_states e s).map fun x => x - GS
  let T_4_1 := T_4_1.set 1 (T_4_1.getD 1 0 - GS)
  if E_2.getD 0 0 ≤ 0 then
    let t := E_2.getD 0 0
    [("2_T_2", T_2_2.map fun x => x - t),
     ("2_T_1", T_2_1.map fun x => x - t),
     ("2_E", E_2.map fun x => x - t),
     ("4_T_1", T_4_1.map fun x => x - t),
     ("4_A_2", A_4_2.map fun x => x - t),
     ("4_T_2", T_4_2.map fun x => x - t),
     ("2_A_1", A_2_1.map fun x => x - t),
     ("2_A_2", A_2_2.map fun x => x - t)]
  else
    [("2_T_2", T_2_2),
     ("2_T_1", T_2_1),
     ("2_E", E_2),
     ("4_T_1", T_4_1),
     ("4_A_2", A_4_2),
     ("4_T_2", T_4_2),
     ("2_A_1", A_2_1),
     ("2_A_2", A_2_2)]

end d7

namespace d8

/-- Matrix of `d8.A_1_1_states` (matrices.py lines 1275-1283). -/
def A_1_1_mat (e : Env α) (s : LigandFieldTheory α) : Option (List (List α)) :=
  construct_matrix
    [8 * s.Dq + 10 * s.B + 5 * s.C,
     -12 * s.Dq + 8 * s.B + 4 * s.C]
    [((0, 1), e._sqrt6 * (2 * s.B + s.C))]

/-- `d8.A_1_1_states` (matrices.py lines 1275-1283). -/
def A_1_1_states (e : Env α) (s : LigandFieldTheory α) : List α :=
  e.eig ((A_1_1_mat e s).getD [])

/-- Matrix of `d8.E_1_states` (matrices.py lines 1285-1290). -/
def E_1_mat (e : Env α) (s : LigandFieldTheory α) : Option (List (List α)) :=
  construct_matrix
    [8 * s.Dq + s.B + 2 * s.C, -12 * s.Dq + 2 * s.C]
    [((0, 1), -_2sqrt3 e * s.B)]

/-- `d8.E_1_states` (matrices.py lines 1285-1290). -/
def E_1_states (e : Env α) (s : LigandFieldTheory α) : List α :=
  e.eig ((E_1_mat e s).getD [])

/-- Matrix of `d8.T_1_2_states` (matrices.py lines 1292-1297). -/
def T_1_2_mat (e : Env α) (s : LigandFieldTheory α) : Option (List (List α)) :=
  construct_matrix
    [8 * s.Dq + s.B + 2 * s.C, -2 * s.Dq + 2 * s.C]
    [((0, 1), _2sqrt3 e * s.B)]

/-- `d8.T_1_2_states` (matrices.py lines 1292-1297). -/
def T_1_2_states (e : Env α) (s : LigandFieldTheory α) : List α :=
  e.eig ((T_1_2_mat e s).getD [])

/-- Matrix of `d8.T_3_1_states` (matrices.py lines 1299-1304). -/
def T_3_1_mat (e : Env α) (s : LigandFieldTheory α) : Option (List (List α)) :=
  construct_matrix
    [8 * s.Dq - 5 * s.B, -2 * s.Dq + 4 * s.B]
    [((0, 1), 6 * s.B)]

/-- `d8.T_3_1_states` (matrices.py lines 1299-1304). -/
def T_3_1_states (e : Env α) (s : LigandFieldTheory α) : List α :=
  e.eig ((T_3_1_mat e s).getD [])

/-- `d8.solver` (matrices.py lines 1306-1337): `GS = np.array([-12 * Dq - 8 * B])`,
`A_3_2 = np.array([0])`, all other states referenced to `GS`; no conditional
re-referencing branch. -/
def solver (e : Env α) (s : LigandFieldTheory α) : List (String × List α) :=
  let GS := -12 * s.Dq - 8 * s.B
  let T_1_1 := [-2 * s.Dq + 4 * s.B + 2 * s.C - GS]
  let T_3_2 := [-2 * s.Dq - 8 * s.B - GS]
  let A_3_2 : List α := [0]
  let A_1_1 := (A_1_1_states e s).map fun x => x - GS
  let E_1 := (E_1_states e s).map fun x => x - GS
  let T_1_2 := (T_1_2_states e s).map fun x => x - GS
  let T_3_1 := (T_3_1_states e s).map fun x => x - GS
  [("1_A_1", A_1_1),
   ("1_E", E_1),
   ("1_T_3", T_1_2),
   ("3_T_1", T_3_1),
   ("1_T_1", T_1_1),
   ("3_T_2", T_3_2),
   ("3_A_2", A_3_2)]

end d8

end Solvers

/-- Rectangular shape invariant for a list-of-rows matrix: `N` rows, each of
length `N`. -/
def Rect {α : Type} (N : ℕ) (m : List (List α)) : Prop :=
  m.length = N ∧ ∀ k, k < N → (m.getD k []).length = N

/-- Modelled from the spec: `numpy.linalg.eigh` (the external LAPACK routine
wrapped by `LigandFieldTheory.eigensolver`, matrices.py lines 48-60) reads
only one triangle of its argument (the lower one by default); the matrix it
actually diagonalizes is the symmetrization from the lower triangle. -/
def symLower {n : ℕ} (M : Matrix (Fin n) (Fin n) ℝ) : Matrix (Fin n) (Fin n) ℝ :=
  Matrix.of fun i j => if (j : ℕ) ≤ (i : ℕ) then M i j else M j i

/-- Modelled from the spec: `LigandFieldTheory.eigensolver` (matrices.py
lines 48-60) returns `eigh(matrix)[0]`, the real eigenvalues of the
(symmetrized) matrix in ascending order.  `numpy.linalg.eigh` is external
library code, so it is modelled by its documented contract: the ascending
sort of the spectral-theorem eigenvalues of `symLower M`. -/
noncomputable def eigensolver {n : ℕ} (M : Matrix (Fin n) (Fin n) ℝ) : List ℝ :=
  have h : (symLower M).IsHermitian := by
    ext i j
    simp only [Matrix.conjTranspose_apply, star_trivial, symLower, Matrix.of_apply]
    split_ifs with h1 h2 h2
    · have hij : i = j := Fin.ext (by omega)
      subst hij
      rfl
    · rfl
    · rfl
    · omega
  List.insertionSort (· ≤ ·) (List.ofFn h.eigenvalues)

/-- Concrete rational test environment whose eigensolver returns the
singleton `[0]` for every block. -/
def zeroEnv : Env ℚ := ⟨0, 0, 0, fun _ => [0]⟩

/-- Concrete rational test environment whose eigensolver returns the
singleton `[-1]` for every block. -/
def negEnv : Env ℚ := ⟨0, 0, 0, fun _ => [-1]⟩

/-- Concrete parameter set `Dq = B = C = 0`. -/
def sZero : LigandFieldTheory ℚ := ⟨0, 0, 0⟩

section MatrixTheory

variable {α : Type}

theorem lookup_cons_self {β : Type} (k : ℤ × ℤ) (v : β) (t : List ((ℤ × ℤ) × β)) :
    List.lookup k ((k, v) :: t) = some v := by
  simp [List.lookup]

theorem lookup_cons_ne {β : Type} {k k' : ℤ × ℤ} (h : k ≠ k') (v : β)
    (t : List ((ℤ × ℤ) × β)) : List.lookup k ((k', v) :: t) = List.lookup k t := by
  have hb : (k == k') = false := beq_false_of_ne h
  simp [List.lookup, hb]

theorem lookup_eq_none_of_not_mem {β : Type} {k : ℤ × ℤ} :
    ∀ {l : List ((ℤ × ℤ) × β)}, k ∉ l.map Prod.fst → List.lookup k l = none := by
  intro l
  induction l with
  | nil => intro _; rfl
  | cons p t ih =>
    intro h
    simp only [List.map_cons, List.mem_cons] at h
    push_neg at h
    obtain ⟨p1, p2⟩ := p
    rw [lookup_cons_ne h.1, ih h.2]

theorem getD_of_length_le {β : Type} {l : List β} {k : ℕ} (d : β)
    (h : l.length ≤ k) : l.getD k d = d := by
  rw [List.getD_eq_getElem?_getD, List.getElem?_eq_none h]
  rfl

theorem getD_set_self {β : Type} {l : List β} {i : ℕ} (v d : β)
    (h : i < l.length) : (l.set i v).getD i d = v := by
  rw [List.getD_eq_getElem?_getD, List.getElem?_set_self h]
  rfl

theorem getD_set_ne {β : Type} {l : List β} {i k : ℕ} (v d : β)
    (h : i ≠ k) : (l.set i v).getD k d = l.getD k d := by
  rw [List.getD_eq_getElem?_getD, List.getElem?_set_ne h,
    List.getD_eq_getElem?_getD]

theorem getD_replicate {β : Type} {n k : ℕ} (v : β) (h : k < n) :
    (List.replicate n v).getD k v = v := by
  rw [List.getD_eq_getElem?_getD, List.getElem?_replicate, if_pos h]
  rfl

theorem getD_replicate' {β : Type} {n k : ℕ} (d : β) :
    (List.replicate n d).getD k d = d := by
  rcases lt_or_le k n with h | h
  · exact getD_replicate d h
  · exact getD_of_length_le d (by simpa using h)

theorem rect_diagMatrix [Zero α] (diag : List α) : Rect diag.length (diagMatrix diag) := by
  constructor
  · simp [diagMatrix]
  · intro k hk
    rw [diagMatrix, List.getD_eq_getElem?_getD, List.getElem?_map,
      List.getElem?_range hk]
    simp

theorem diagMatrix_row [Zero α] (diag : List α) {k : ℕ} (hk : k < diag.length) :
    (diagMatrix diag).getD k [] =
      (List.replicate diag.length (0 : α)).set k (diag.getD k 0) := by
  rw [diagMatrix, List.getD_eq_getElem?_getD, List.getElem?_map,
    List.getElem?_range hk]
  rfl

theorem entry_diagMatrix [Zero α] (diag : List α) (x y : ℕ) :
    entry (diagMatrix diag) x y =
      if x = y ∧ x < diag.length then diag.getD x 0 else 0 := by
  rcases lt_or_le x diag.length with hx | hx
  · rw [entry, diagMatrix_row diag hx]
    rcases eq_or_ne x y with hxy | hxy
    · subst hxy
      rw [getD_set_self _ _ (by simpa using hx), if_pos ⟨rfl, hx⟩]
    · rw [getD_set_ne _ _ hxy, if_neg (by tauto), getD_replicate']
  · rw [entry, getD_of_length_le [] (by simpa [diagMatrix] using hx),
      if_neg (by omega)]
    rfl

theorem rect_matSet {N : ℕ} {m : List (List α)} (hm : Rect N m) {a : ℕ}
    (b : ℕ) (v : α) (ha : a < N) : Rect N (matSet m a b v) := by
  obtain ⟨hlen, hrow⟩ := hm
  constructor
  · simpa [matSet] using hlen
  · intro k hk
    rcases eq_or_ne a k with hak | hak
    · subst hak
      rw [matSet, getD_set_self _ _ (by omega)]
      simpa using hrow a hk
    · rw [matSet, getD_set_ne _ _ hak]
      exact hrow k hk

theorem entry_matSet_self [Zero α] {N : ℕ} {m : List (List α)} (hm : Rect N m)
    {a b : ℕ} (v : α) (ha : a < N) (hb : b < N) :
    entry (matSet m a b v) a b = v := by
  obtain ⟨hlen, hrow⟩ := hm
  rw [entry, matSet, getD_set_self _ _ (by omega)]
  exact getD_set_self _ _ (by rw [hrow a ha]; exact hb)

theorem entry_matSet_ne [Zero α] {m : List (List α)} {a b x y : ℕ} (v : α)
    (h : (x, y) ≠ (a, b)) : entry (matSet m a b v) x y = entry m x y := by
  rcases eq_or_ne a x with hax | hax
  · subst hax
    have hby : b ≠ y := by
      intro hby
      exact h (by rw [hby])
    rcases lt_or_le a m.length with hlt | hle
    · rw [entry, matSet, getD_set_self _ _ hlt, getD_set_ne _ _ hby, entry]
    · rw [matSet, List.set_eq_of_length_le hle]
  · rw [entry, matSet, getD_set_ne _ _ hax, entry]

theorem numpyIndex_inRange {N : ℕ} {i : ℤ} (h0 : 0 ≤ i) (hN : i < (N : ℤ)) :
    numpyIndex N i = some i.toNat := by
  rw [numpyIndex, if_pos ⟨h0, hN⟩]

theorem numpyIndex_oob {N : ℕ} {i : ℤ} (h : i < -(N : ℤ) ∨ (N : ℤ) ≤ i) :
    numpyIndex N i = none := by
  rw [numpyIndex, if_neg (by omega), if_neg (by omega)]

theorem npSet_inRange {N : ℕ} (m : List (List α)) {i j : ℤ} (v : α)
    (h0i : 0 ≤ i) (hiN : i < (N : ℤ)) (h0j : 0 ≤ j) (hjN : j < (N : ℤ)) :
    npSet N m i j v = some (matSet m i.toNat j.toNat v) := by
  rw [npSet, numpyIndex_inRange h0i hiN, numpyIndex_inRange h0j hjN]

theorem npSet_oob {N : ℕ} (m : List (List α)) {i j : ℤ} (v : α)
    (h : i < -(N : ℤ) ∨ (N : ℤ) ≤ i ∨ j < -(N : ℤ) ∨ (N : ℤ) ≤ j) :
    npSet N m i j v = none := by
  rcases h with h | h | h | h
  · rw [npSet, numpyIndex_oob (Or.inl h)]
  · rw [npSet, numpyIndex_oob (Or.inr h)]
  · cases hi : numpyIndex N i <;>
      rw [npSet, hi, numpyIndex_oob (Or.inl h)]
  · cases hi : numpyIndex N i <;>
      rw [npSet, hi, numpyIndex_oob (Or.inr h)]

theorem cmStep_inRange {N : ℕ} (m : List (List α)) {i j : ℤ} (v : α)
    (h0i : 0 ≤ i) (hiN : i < (N : ℤ)) (h0j : 0 ≤ j) (hjN : j < (N : ℤ)) :
    cmStep N m ((i, j), v) =
      some (matSet (matSet m i.toNat j.toNat v) j.toNat i.toNat v) := by
  rw [cmStep]
  rw [npSet_inRange m v h0i hiN h0j hjN]
  simpa using npSet_inRange (matSet m i.toNat j.toNat v) v h0j hjN h0i hiN

theorem cmStep_oob {N : ℕ} (m : List (List α)) {i j : ℤ} (v : α)
    (h : i < -(N : ℤ) ∨ (N : ℤ) ≤ i ∨ j < -(N : ℤ) ∨ (N : ℤ) ≤ j) :
    cmStep N m ((i, j), v) = none := by
  rw [cmStep, npSet_oob m v h]
  rfl

end MatrixTheory

section MatrixSpec

theorem mem_keys_lookup_isSome {β : Type} {k : ℤ × ℤ} :
    ∀ {l : List ((ℤ × ℤ) × β)}, k ∈ l.map Prod.fst →
      ∃ v, List.lookup k l = some v := by
  intro l
  induction l with
  | nil => intro h; simp at h
  | cons p t ih =>
    intro h
    obtain ⟨k', v'⟩ := p
    rcases eq_or_ne k k' with hk | hk
    · subst hk
      exact ⟨v', lookup_cons_self k v' t⟩
    · rw [lookup_cons_ne hk]
      apply ih
      simp only [List.map_cons, List.mem_cons] at h
      tauto

theorem mem_of_lookup_eq_some {β : Type} {k : ℤ × ℤ} {v : β} :
    ∀ {l : List ((ℤ × ℤ) × β)}, List.lookup k l = some v → (k, v) ∈ l := by
  intro l
  induction l with
  | nil => intro h; simp [List.lookup] at h
  | cons p t ih =>
    intro h
    obtain ⟨k', v'⟩ := p
    rcases eq_or_ne k k' with hk | hk
    · subst hk
      rw [lookup_cons_self] at h
      obtain rfl : v' = v := by injection h
      exact List.mem_cons_self _ _
    · rw [lookup_cons_ne hk] at h
      exact List.mem_cons_of_mem _ (ih h)

theorem entry_out {α : Type} [Zero α] {N : ℕ} {m : List (List α)}
    (hm : Rect N m) {x y : ℕ} (h : N ≤ x ∨ N ≤ y) : entry m x y = 0 := by
  obtain ⟨hlen, hrow⟩ := hm
  rcases lt_or_le x N with hx | hx
  · have hy : N ≤ y := h.resolve_left (by omega)
    rw [entry, getD_of_length_le _ (by rw [hrow x hx]; exact hy)]
  · rw [entry, getD_of_length_le [] (by omega)]
    rfl

theorem foldlM_cmStep_char {α : Type} [Zero α] (N : ℕ) :
    ∀ (off : List ((ℤ × ℤ) × α)) (m : List (List α)), Rect N m →
      (∀ p ∈ off, 0 ≤ p.1.1 ∧ p.1.1 < p.1.2 ∧ p.1.2 < (N : ℤ)) →
      (off.map Prod.fst).Nodup →
      ∃ M, off.foldlM (cmStep N) m = some M ∧ Rect N M ∧
        (∀ q ∈ off, entry M q.1.1.toNat q.1.2.toNat = q.2 ∧
          entry M q.1.2.toNat q.1.1.toNat = q.2) ∧
        (∀ x y : ℕ, ((x : ℤ), (y : ℤ)) ∉ off.map Prod.fst →
          ((y : ℤ), (x : ℤ)) ∉ off.map Prod.fst → entry M x y = entry m x y) := by
  intro off
  induction off with
  | nil =>
    intro m hm _ _
    exact ⟨m, rfl, hm, fun q hq => absurd hq (List.not_mem_nil q),
      fun x y _ _ => rfl⟩
  | cons p t ih =>
    obtain ⟨⟨i, j⟩, v⟩ := p
    intro m hm hb hnd
    have hb0 := hb ((i, j), v) (List.mem_cons_self _ _)
    have h0i : 0 ≤ i := by simpa using hb0.1
    have hij : i < j := by simpa using hb0.2.1
    have hjN : j < (N : ℤ) := by simpa using hb0.2.2
    have h0j : 0 ≤ j := le_trans h0i hij.le
    have hiN : i < (N : ℤ) := lt_trans hij hjN
    have hbt : ∀ p ∈ t, 0 ≤ p.1.1 ∧ p.1.1 < p.1.2 ∧ p.1.2 < (N : ℤ) :=
      fun p hp => hb p (List.mem_cons_of_mem _ hp)
    rw [List.map_cons, List.nodup_cons] at hnd
    obtain ⟨hnotmem, hndt⟩ := hnd
    have horient : ∀ a b : ℤ, (a, b) ∈ t.map Prod.fst → a < b := by
      intro a b hmem
      obtain ⟨q, hq, hfst⟩ := List.mem_map.mp hmem
      have hlt := (hbt q hq).2.1
      rw [hfst] at hlt
      simpa using hlt
    have hiNN : i.toNat < N := by omega
    have hjNN : j.toNat < N := by omega
    have hijN : i.toNat ≠ j.toNat := by omega
    have hm1 : Rect N (matSet m i.toNat j.toNat v) := rect_matSet hm j.toNat v hiNN
    have hm2 : Rect N (matSet (matSet m i.toNat j.toNat v) j.toNat i.toNat v) :=
      rect_matSet hm1 i.toNat v hjNN
    obtain ⟨M, hfold, hrect, hin, hout⟩ :=
      ih (matSet (matSet m i.toNat j.toNat v) j.toNat i.toNat v) hm2 hbt hndt
    have hij_t : ((i, j) : ℤ × ℤ) ∉ t.map Prod.fst := hnotmem
    have hji_t : ((j, i) : ℤ × ℤ) ∉ t.map Prod.fst := by
      intro hmem
      have := horient j i hmem
      omega
    have hcast : ∀ a : ℤ, 0 ≤ a → ((a.toNat : ℤ)) = a := fun a ha =>
      Int.toNat_of_nonneg ha
    have hhead1 : entry M i.toNat j.toNat = v := by
      rw [hout i.toNat j.toNat (by rw [hcast i h0i, hcast j h0j]; exact hij_t)
        (by rw [hcast i h0i, hcast j h0j]; exact hji_t)]
      rw [entry_matSet_ne v (by
        intro hc
        injection hc with hc1 hc2
        exact hijN hc1)]
      exact entry_matSet_self hm v hiNN hjNN
    have hhead2 : entry M j.toNat i.toNat = v := by
      rw [hout j.toNat i.toNat (by rw [hcast i h0i, hcast j h0j]; exact hji_t)
        (by rw [hcast i h0i, hcast j h0j]; exact hij_t)]
      exact entry_matSet_self hm1 v hjNN hiNN
    refine ⟨M, ?_, hrect, ?_, ?_⟩
    · rw [List.foldlM_cons, cmStep_inRange m v h0i hiN h0j hjN]
      simpa using hfold
    · intro q hq
      rcases List.mem_cons.mp hq with hq | hq
      · subst hq
        exact ⟨hhead1, hhead2⟩
      · exact hin q hq
    · intro x y hx hy
      rw [List.map_cons, List.mem_cons] at hx hy
      push_neg at hx hy
      rw [hout x y hx.2 hy.2]
      have hxy1 : (x, y) ≠ (j.toNat, i.toNat) := by
        intro hc
        injection hc with hc1 hc2
        apply hy.1
        subst hc1
        subst hc2
        rw [hcast i h0i, hcast j h0j]
      have hxy2 : (x, y) ≠ (i.toNat, j.toNat) := by
        intro hc
        injection hc with hc1 hc2
        apply hx.1
        subst hc1
        subst hc2
        rw [hcast i h0i, hcast j h0j]
      rw [entry_matSet_ne v hxy1, entry_matSet_ne v hxy2]

end MatrixSpec

/-- Claim C5: for every list of `N` diagonal values and every mapping from
index pairs `(i, j)` with `0 <= i < j < N` to coupling values (distinct keys,
as in a Python dict), `construct_matrix` returns an `N`-by-`N` matrix `M`
with `M[i][i] = diag[i]`, `M[i][j] = M[j][i] =` the mapped value for `(i, j)`
when present and `0` otherwise; in particular the result is symmetric:
`M[i][j] = M[j][i]` for all `i, j`. -/
theorem construct_matrix_spec {α : Type} [Zero α] (diag : List α)
    (off : List ((ℤ × ℤ) × α))
    (hb : ∀ p ∈ off, 0 ≤ p.1.1 ∧ p.1.1 < p.1.2 ∧ p.1.2 < (diag.length : ℤ))
    (hk : (off.map Prod.fst).Nodup) :
    ∃ M, construct_matrix diag off = some M ∧
      M.length = diag.length ∧
      (∀ k, k < diag.length → (M.getD k []).length = diag.length) ∧
      (∀ i, i < diag.length → entry M i i = diag.getD i 0) ∧
      (∀ i j : ℕ, i < j → j < diag.length →
        entry M i j = (List.lookup ((i : ℤ), (j : ℤ)) off).getD 0 ∧
        entry M j i = (List.lookup ((i : ℤ), (j : ℤ)) off).getD 0) ∧
      (∀ x y : ℕ, entry M x y = entry M y x) := by
  obtain ⟨M, hfold, hrect, hin, hout⟩ :=
    foldlM_cmStep_char diag.length off (diagMatrix diag) (rect_diagMatrix diag)
      hb hk
  have horient : ∀ a b : ℤ, (a, b) ∈ off.map Prod.fst → a < b := by
    intro a b hmem
    obtain ⟨q, hq, hfst⟩ := List.mem_map.mp hmem
    have hlt := (hb q hq).2.1
    rw [hfst] at hlt
    simpa using hlt
  have hgen : ∀ i j : ℕ, i < j → j < diag.length →
      entry M i j = (List.lookup ((i : ℤ), (j : ℤ)) off).getD 0 ∧
      entry M j i = (List.lookup ((i : ℤ), (j : ℤ)) off).getD 0 := by
    intro i j hij hjN
    cases hlv : List.lookup ((i : ℤ), (j : ℤ)) off with
    | none =>
      have hmem1 : ((i : ℤ), (j : ℤ)) ∉ off.map Prod.fst := by
        intro hmem
        obtain ⟨w, hw⟩ := mem_keys_lookup_isSome hmem
        rw [hlv] at hw
        exact Option.noConfusion hw
      have hmem2 : ((j : ℤ), (i : ℤ)) ∉ off.map Prod.fst := by
        intro hmem
        have := horient _ _ hmem
        omega
      constructor
      · rw [hout i j hmem1 hmem2, entry_diagMatrix, if_neg (by omega)]
        rfl
      · rw [hout j i hmem2 hmem1, entry_diagMatrix, if_neg (by omega)]
        rfl
    | some v =>
      have hq : ((((i : ℕ) : ℤ), ((j : ℕ) : ℤ)), v) ∈ off :=
        mem_of_lookup_eq_some hlv
      have h1 := (hin _ hq).1
      have h2 := (hin _ hq).2
      dsimp only at h1 h2
      have hti : ((i : ℤ)).toNat = i := by omega
      have htj : ((j : ℤ)).toNat = j := by omega
      rw [hti, htj] at h1 h2
      exact ⟨by rw [h1]; rfl, by rw [h2]; rfl⟩
  refine ⟨M, hfold, hrect.1, hrect.2, ?_, hgen, ?_⟩
  · intro i hiN
    have hmem : ((i : ℤ), (i : ℤ)) ∉ off.map Prod.fst := by
      intro hmem
      have := horient _ _ hmem
      omega
    rw [hout i i hmem hmem, entry_diagMatrix, if_pos ⟨rfl, hiN⟩]
  · intro x y
    rcases lt_trichotomy x y with h | h | h
    · by_cases hy : y < diag.length
      · obtain ⟨e1, e2⟩ := hgen x y h hy
        rw [e1, e2]
      · rw [entry_out hrect (Or.inr (by omega)),
          entry_out hrect (Or.inl (by omega))]
    · subst h
      rfl
    · by_cases hx : x < diag.length
      · obtain ⟨e1, e2⟩ := hgen y x h hx
        rw [e1, e2]
      · rw [entry_out hrect (Or.inl (by omega)),
          entry_out hrect (Or.inr (by omega))]

/-- Witness for `construct_matrix_spec` at the concrete input
`diag = [1, 2]`, `off = {(0, 1) : 5}`. -/
theorem construct_matrix_spec_witness :
    ∃ M, construct_matrix [(1 : ℚ), 2] [(((0 : ℤ), (1 : ℤ)), (5 : ℚ))] = some M ∧
      M.length = 2 ∧
      (∀ k, k < 2 → (M.getD k []).length = 2) ∧
      (∀ i, i < 2 → entry M i i = [(1 : ℚ), 2].getD i 0) ∧
      (∀ i j : ℕ, i < j → j < 2 →
        entry M i j =
          (List.lookup ((i : ℤ), (j : ℤ)) [(((0 : ℤ), (1 : ℤ)), (5 : ℚ))]).getD 0 ∧
        entry M j i =
          (List.lookup ((i : ℤ), (j : ℤ)) [(((0 : ℤ), (1 : ℤ)), (5 : ℚ))]).getD 0) ∧
      (∀ x y : ℕ, entry M x y = entry M y x) :=
  construct_matrix_spec [(1 : ℚ), 2] [(((0 : ℤ), (1 : ℤ)), (5 : ℚ))]
    (by decide) (by decide)

theorem foldlM_cmStep_oob {α : Type} [Zero α] (N : ℕ) :
    ∀ (off : List ((ℤ × ℤ) × α)) (m : List (List α)),
      (∃ p ∈ off, p.1.1 < -(N : ℤ) ∨ (N : ℤ) ≤ p.1.1 ∨
        p.1.2 < -(N : ℤ) ∨ (N : ℤ) ≤ p.1.2) →
      off.foldlM (cmStep N) m = none := by
  intro off
  induction off with
  | nil =>
    intro m h
    simp at h
  | cons q t ih =>
    obtain ⟨⟨qi, qj⟩, qv⟩ := q
    intro m h
    rw [List.foldlM_cons]
    obtain ⟨p, hp, hbad⟩ := h
    rcases List.mem_cons.mp hp with hq | ht
    · subst hq
      rw [cmStep_oob m qv (by simpa using hbad)]
      rfl
    · cases hc : cmStep N m ((qi, qj), qv) with
      | none => rfl
      | some m2 => simpa using ih m2 ⟨p, ht, hbad⟩

/-- Claim C7 counterexample: the off-diagonal key `(-1, 0)` lies outside the
index range `0..N-1` (here `N = 2`), yet `construct_matrix` does not fail:
numpy wraps the negative index to `N - 1` and silently writes the entry, so
the call returns a matrix with the coupling at position `(1, 0)`/`(0, 1)`. -/
theorem construct_matrix_negative_index_counterexample :
    ¬ (0 : ℤ) ≤ -1 ∧
      construct_matrix [(1 : ℚ), 2] [((((-1) : ℤ), (0 : ℤ)), (5 : ℚ))] =
        some [[1, 5], [5, 2]] := by
  constructor
  · decide
  · decide

/-- Claim C7 (amended): `construct_matrix` fails fast (raises, modelled as
`none`) exactly for indices that are out of bounds for numpy, i.e. `>= N` or
`< -N`; an index in `-N..-1` instead wraps numpy-style to `index + N` and is
written silently. -/
theorem construct_matrix_oob_fails {α : Type} [Zero α] (diag : List α)
    (off : List ((ℤ × ℤ) × α))
    (h : ∃ p ∈ off, p.1.1 < -(diag.length : ℤ) ∨ (diag.length : ℤ) ≤ p.1.1 ∨
      p.1.2 < -(diag.length : ℤ) ∨ (diag.length : ℤ) ≤ p.1.2) :
    construct_matrix diag off = none :=
  foldlM_cmStep_oob diag.length off (diagMatrix diag) h

/-- Witness for `construct_matrix_oob_fails` at the concrete input
`diag = [1, 2]`, `off = {(2, 0) : 5}`. -/
theorem construct_matrix_oob_fails_witness :
    (∃ p ∈ [(((2 : ℤ), (0 : ℤ)), (5 : ℚ))],
      p.1.1 < -(2 : ℤ) ∨ (2 : ℤ) ≤ p.1.1 ∨
        p.1.2 < -(2 : ℤ) ∨ (2 : ℤ) ≤ p.1.2) ∧
      construct_matrix [(1 : ℚ), 2] [(((2 : ℤ), (0 : ℤ)), (5 : ℚ))] = none :=
  ⟨by decide, construct_matrix_oob_fails [(1 : ℚ), 2]
    [(((2 : ℤ), (0 : ℤ)), (5 : ℚ))] (by decide)⟩

/-- Claim C6: for every real symmetric square matrix `M` of size `N`,
`eigensolver M` returns exactly `N` eigenvalues sorted in non-decreasing
order: the output length equals the input dimension and adjacent output
entries are ordered. -/
theorem eigensolver_length_sorted {n : ℕ} (M : Matrix (Fin n) (Fin n) ℝ)
    (h : M.IsSymm) :
    (eigensolver M).length = n ∧ (eigensolver M).Sorted (· ≤ ·) := by
  constructor
  · rw [eigensolver, List.length_insertionSort, List.length_ofFn]
  · exact List.sorted_insertionSort _ _

/-- Witness for `eigensolver_length_sorted` at the identity matrix of
size 2. -/
theorem eigensolver_length_sorted_witness :
    (1 : Matrix (Fin 2) (Fin 2) ℝ).IsSymm ∧
      ((eigensolver (1 : Matrix (Fin 2) (Fin 2) ℝ)).length = 2 ∧
        (eigensolver (1 : Matrix (Fin 2) (Fin 2) ℝ)).Sorted (· ≤ ·)) :=
  ⟨Matrix.transpose_one, eigensolver_length_sorted _ Matrix.transpose_one⟩

/-- Claim C1: for every environment (hence for every eigensolver and every
value of the square-root constants) and all parameters `(Dq, B, C)`, each
configuration's `solver` returns a mapping in which the ground-state term's
first eigenvalue is exactly `0`: in d2 the first entry of `3_T_1`, in d3
`4_A_2`, in d8 `3_A_2`; in d4/d5/d6/d7 the designated ground term after the
conditional re-referencing (the candidate block when the branch fired,
otherwise the ligand-field independent ground singleton). -/
theorem solver_ground_state_zero {α : Type} [LinearOrderedField α]
    (e : Env α) (s : LigandFieldTheory α) :
    (getTerm (d2.solver e s) "3_T_1").getD 0 0 = 0 ∧
    (getTerm (d3.solver e s) "4_A_2").getD 0 0 = 0 ∧
    ((getTerm (d4.solver e s) "3_T_1").getD 0 0 = 0 ∨
      (0 < (getTerm (d4.solver e s) "3_T_1").getD 0 0 ∧
        (getTerm (d4.solver e s) "5_E_1").getD 0 0 = 0)) ∧
    ((getTerm (d5.solver e s) "2_T_2").getD 0 0 = 0 ∨
      (0 < (getTerm (d5.solver e s) "2_T_2").getD 0 0 ∧
        (getTerm (d5.solver e s) "6_A_1").getD 0 0 = 0)) ∧
    ((getTerm (d6.solver e s) "1_A_1").getD 0 0 = 0 ∨
      (ENERGY_TOLERANCE α < (getTerm (d6.solver e s) "1_A_1").getD 0 0 ∧
        (getTerm (d6.solver e s) "5_T_2").getD 0 0 = 0)) ∧
    ((getTerm (d7.solver e s) "2_E").getD 0 0 = 0 ∨
      (0 < (getTerm (d7.solver e s) "2_E").getD 0 0 ∧
        (getTerm (d7.solver e s) "4_T_1").getD 0 0 = 0)) ∧
    (getTerm (d8.solver e s) "3_A_2").getD 0 0 = 0 := by
  refine ⟨?_, ?_, ?_, ?_, ?_, ?_, ?_⟩
  · simp only [d2.solver, getTerm, List.lookup]
    norm_num [List.lookup]
    cases hl : d2.T_3_1_states e s with
    | nil => simp [List.lookup]
    | cons a l => simp [List.lookup]
  · simp [d3.solver, getTerm, List.lookup]
  · simp only [d4.solver, getTerm, List.lookup]
    split_ifs with h
    · left
      norm_num [List.lookup]
      cases hl : d4.T_3_1_states e s with
      | nil => simp [List.lookup]
      | cons a l => simp [List.lookup]
    · right
      constructor
      · norm_num [List.lookup]
        cases hl : d4.T_3_1_states e s with
        | nil => simp_all [List.lookup]
        | cons a l =>
          rw [hl] at h
          simpa using lt_of_not_le h
      · simp [List.lookup]
  · simp only [d5.solver, getTerm, List.lookup]
    split_ifs with h
    · left
      norm_num [List.lookup]
      cases hl : d5.T_2_2_states e s with
      | nil => simp [List.lookup]
      | cons a l => simp [List.lookup]
    · right
      constructor
      · norm_num [List.lookup]
        cases hl : d5.T_2_2_states e s with
        | nil => simp_all [List.lookup]
        | cons a l =>
          rw [hl] at h
          simpa using lt_of_not_le h
      · simp [List.lookup]
  · simp only [d6.solver, getTerm, List.lookup]
    split_ifs with h
    · left
      norm_num [List.lookup]
      cases hl : d6.A_1_1_states e s with
      | nil => simp [List.lookup]
      | cons a l => simp [List.lookup]
    · right
      constructor
      · norm_num [List.lookup]
        cases hl : d6.A_1_1_states e s with
        | nil =>
          rw [hl] at h
          refine absurd ?_ h
          simp [ENERGY_TOLERANCE]
        | cons a l =>
          rw [hl] at h
          simpa using lt_of_not_le h
      · simp [List.lookup]
  · simp only [d7.solver, getTerm, List.lookup]
    split_ifs with h
    · left
      norm_num [List.lookup]
      cases hl : d7.E_2_states e s with
      | nil => simp [List.lookup]
      | cons a l => simp [List.lookup]
    · right
      constructor
      · norm_num [List.lookup]
        cases hl : d7.E_2_states e s with
        | nil => simp_all [List.lookup]
        | cons a l =>
          rw [hl] at h
          simpa using lt_of_not_le h
      · norm_num [List.lookup]
        cases hT : d7.T_4_1_states e s with
        | nil => simp [List.lookup]
        | cons a l => simp [List.lookup]
  · simp [d8.solver, getTerm, List.lookup]

/-- Claim C2: for every environment and all `(Dq, B, C)`, the term labels of
the mapping returned by each `solver` are a fixed, configuration-specific,
duplicate-free list: d2 has 7 keys, d3 8, d4 12, d5 11, d6 12, d7 8,
d8 7. -/
theorem solver_key_counts {α : Type} [LinearOrderedField α] (e : Env α)
    (s : LigandFieldTheory α) :
    ((d2.solver e s).map Prod.fst =
        ["1_A_1", "1_E", "1_T_3", "3_T_1", "1_T_1", "3_T_2", "3_A_2"] ∧
      (d2.solver e s).length = 7 ∧ ((d2.solver e s).map Prod.fst).Nodup) ∧
    ((d3.solver e s).map Prod.fst =
        ["2_T_2", "2_T_1", "2_E", "4_T_1", "4_A_2", "4_T_2", "2_A_1", "2_A_2"] ∧
      (d3.solver e s).length = 8 ∧ ((d3.solver e s).map Prod.fst).Nodup) ∧
    ((d4.solver e s).map Prod.fst =
        ["3_T_1", "1_T_2", "1_A_1", "1_E_1", "3_T_2", "1_T_1", "3_E_1",
          "3_A_2", "1_A_2", "5_E_1", "5_T_2", "3_A_1"] ∧
      (d4.solver e s).length = 12 ∧ ((d4.solver e s).map Prod.fst).Nodup) ∧
    ((d5.solver e s).map Prod.fst =
        ["2_T_2", "2_T_1", "2_E", "2_A_1", "2_A_2", "4_T_1", "4_T_2", "4_E",
          "6_A_1", "4_A_1", "4_A_2"] ∧
      (d5.solver e s).length = 11 ∧ ((d5.solver e s).map Prod.fst).Nodup) ∧
    ((d6.solver e s).map Prod.fst =
        ["3_T_1", "1_T_2", "1_A_1", "1_E_1", "3_T_2", "1_T_1", "3_E_1",
          "3_A_2", "1_A_2", "5_E_1", "5_T_2", "3_A_1"] ∧
      (d6.solver e s).length = 12 ∧ ((d6.solver e s).map Prod.fst).Nodup) ∧
    ((d7.solver e s).map Prod.fst =
        ["2_T_2", "2_T_1", "2_E", "4_T_1", "4_A_2", "4_T_2", "2_A_1", "2_A_2"] ∧
      (d7.solver e s).length = 8 ∧ ((d7.solver e s).map Prod.fst).Nodup) ∧
    ((d8.solver e s).map Prod.fst =
        ["1_A_1", "1_E", "1_T_3", "3_T_1", "1_T_1", "3_T_2", "3_A_2"] ∧
      (d8.solver e s).length = 7 ∧ ((d8.solver e s).map Prod.fst).Nodup) := by
  have h2 : (d2.solver e s).map Prod.fst =
      ["1_A_1", "1_E", "1_T_3", "3_T_1", "1_T_1", "3_T_2", "3_A_2"] := by
    simp only [d2.solver]
    rfl
  have h3 : (d3.solver e s).map Prod.fst =
      ["2_T_2", "2_T_1", "2_E", "4_T_1", "4_A_2", "4_T_2", "2_A_1", "2_A_2"] := by
    simp only [d3.solver]
    rfl
  have h4 : (d4.solver e s).map Prod.fst =
      ["3_T_1", "1_T_2", "1_A_1", "1_E_1", "3_T_2", "1_T_1", "3_E_1",
        "3_A_2", "1_A_2", "5_E_1", "5_T_2", "3_A_1"] := by
    simp only [d4.solver]
    split_ifs <;> rfl
  have h5 : (d5.solver e s).map Prod.fst =
      ["2_T_2", "2_T_1", "2_E", "2_A_1", "2_A_2", "4_T_1", "4_T_2", "4_E",
        "6_A_1", "4_A_1", "4_A_2"] := by
    simp only [d5.solver]
    split_ifs <;> rfl
  have h6 : (d6.solver e s).map Prod.fst =
      ["3_T_1", "1_T_2", "1_A_1", "1_E_1", "3_T_2", "1_T_1", "3_E_1",
        "3_A_2", "1_A_2", "5_E_1", "5_T_2", "3_A_1"] := by
    simp only [d6.solver]
    split_ifs <;> rfl
  have h7 : (d7.solver e s).map Prod.fst =
      ["2_T_2", "2_T_1", "2_E", "4_T_1", "4_A_2", "4_T_2", "2_A_1", "2_A_2"] := by
    simp only [d7.solver]
    split_ifs <;> rfl
  have h8 : (d8.solver e s).map Prod.fst =
      ["1_A_1", "1_E", "1_T_3", "3_T_1", "1_T_1", "3_T_2", "3_A_2"] := by
    simp only [d8.solver]
    rfl
  refine ⟨⟨h2, ?_, ?_⟩, ⟨h3, ?_, ?_⟩, ⟨h4, ?_, ?_⟩, ⟨h5, ?_, ?_⟩,
    ⟨h6, ?_, ?_⟩, ⟨h7, ?_, ?_⟩, ⟨h8, ?_, ?_⟩⟩
  · rw [← List.length_map (d2.solver e s) Prod.fst, h2]
    rfl
  · rw [h2]; decide
  · rw [← List.length_map (d3.solver e s) Prod.fst, h3]
    rfl
  · rw [h3]; decide
  · rw [← List.length_map (d4.solver e s) Prod.fst, h4]
    rfl
  · rw [h4]; decide
  · rw [← List.length_map (d5.solver e s) Prod.fst, h5]
    rfl
  · rw [h5]; decide
  · rw [← List.length_map (d6.solver e s) Prod.fst, h6]
    rfl
  · rw [h6]; decide
  · rw [← List.length_map (d7.solver e s) Prod.fst, h7]
    rfl
  · rw [h7]; decide
  · rw [← List.length_map (d8.solver e s) Prod.fst, h8]
    rfl
  · rw [h8]; decide

/-- Claim C3 counterexample: at an explicit environment (eigensolver
returning `-1` entries, `Dq = B = C = 0`) the referenced lowest value of
d3's candidate block `2_E` in the returned mapping is `-1 <= 0`, not `0`,
and `4_A_2` is still `[0]`: `d3.solver` performed no second re-zero even
though the claimed crossing condition held. -/
theorem d3_no_rezero_counterexample :
    (getTerm (d3.solver negEnv sZero) "2_E").getD 0 0 = -1 ∧
      (getTerm (d3.solver negEnv sZero) "2_E").getD 0 0 ≤ 0 ∧
      ¬ (getTerm (d3.solver negEnv sZero) "2_E").getD 0 0 = 0 ∧
      getTerm (d3.solver negEnv sZero) "4_A_2" = [0] := by
  refine ⟨?_, ?_, ?_, ?_⟩ <;>
    simp +decide [d3.solver, negEnv, sZero, getTerm, List.lookup]

/-- Claim C3 (amended): the conditional re-zero guard uses crossing
tolerance exactly `0` in d4, d5 and d7 (the re-zero fires iff the candidate's
referenced lowest value is `<= 0`), tolerance `1e-4` (`ENERGY_TOLERANCE`)
only in d6, and d3 has no conditional re-zero at all: its solver returns the
once-referenced states unconditionally. -/
theorem rezero_tolerances {α : Type} [LinearOrderedField α] (e : Env α)
    (s : LigandFieldTheory α) :
    d3.solver e s =
      [("2_T_2", (d3.T_2_2_states e s).map fun x => x - (-12 * s.Dq - 15 * s.B)),
       ("2_T_1", (d3.T_2_1_states e s).map fun x => x - (-12 * s.Dq - 15 * s.B)),
       ("2_E", (d3.E_2_states e s).map fun x => x - (-12 * s.Dq - 15 * s.B)),
       ("4_T_1", (d3.T_4_1_states e s).map fun x => x - (-12 * s.Dq - 15 * s.B)),
       ("4_A_2", [0]),
       ("4_T_2", [-2 * s.Dq - 15 * s.B - (-12 * s.Dq - 15 * s.B)]),
       ("2_A_1", [-2 * s.Dq - 11 * s.B + 3 * s.C - (-12 * s.Dq - 15 * s.B)]),
       ("2_A_2", [-2 * s.Dq + 9 * s.B + 3 * s.C - (-12 * s.Dq - 15 * s.B)])] ∧
    (getTerm (d4.solver e s) "3_T_1").getD 0 0 =
      (if ((d4.T_3_1_states e s).map fun x => x - (-6 * s.Dq - 21 * s.B)).getD 0 0 ≤ 0
        then 0
        else ((d4.T_3_1_states e s).map fun x => x - (-6 * s.Dq - 21 * s.B)).getD 0 0) ∧
    (getTerm (d5.solver e s) "2_T_2").getD 0 0 =
      (if ((d5.T_2_2_states e s).map fun x => x - (-35 * s.B)).getD 0 0 ≤ 0
        then 0
        else ((d5.T_2_2_states e s).map fun x => x - (-35 * s.B)).getD 0 0) ∧
    (getTerm (d6.solver e s) "1_A_1").getD 0 0 =
      (if ((d6.A_1_1_states e s).map fun x => -(-4 * s.Dq - 21 * s.B) + x).getD 0 0 ≤
          ENERGY_TOLERANCE α
        then 0
        else ((d6.A_1_1_states e s).map fun x => -(-4 * s.Dq - 21 * s.B) + x).getD 0 0) ∧
    (getTerm (d7.solver e s) "2_E").getD 0 0 =
      (if ((d7.E_2_states e s).map fun x => x - (d7.T_4_1_states e s).getD 0 0).getD 0 0 ≤ 0
        then 0
        else ((d7.E_2_states e s).map fun x => x - (d7.T_4_1_states e s).getD 0 0).getD 0 0) := by
  refine ⟨rfl, ?_, ?_, ?_, ?_⟩
  · simp only [d4.solver, getTerm, List.lookup]
    split_ifs with h
    · norm_num [List.lookup]
      cases hl : d4.T_3_1_states e s with
      | nil => simp [List.lookup]
      | cons a l => simp [List.lookup]
    · norm_num [List.lookup]
  · simp only [d5.solver, getTerm, List.lookup]
    split_ifs with h
    · norm_num [List.lookup]
      cases hl : d5.T_2_2_states e s with
      | nil => simp [List.lookup]
      | cons a l => simp [List.lookup]
    · norm_num [List.lookup]
  · simp only [d6.solver, getTerm, List.lookup]
    split_ifs with h
    · norm_num [List.lookup]
      cases hl : d6.A_1_1_states e s with
      | nil => simp [List.lookup]
      | cons a l => simp [List.lookup]
    · simp +decide [List.lookup]
  · simp only [d7.solver, getTerm, List.lookup]
    split_ifs with h
    · norm_num [List.lookup]
      cases hl : d7.E_2_states e s with
      | nil => simp [List.lookup]
      | cons a l => simp [List.lookup]
    · simp +decide [List.lookup]

/-- Claim C4: in d4 and d6, after referencing every term array to the
nominal ground-state scalar (`-6 Dq - 21 B` for d4, `-4 Dq - 21 B` for d6),
if the nominal ground-state candidate's lowest referenced eigenvalue (d4:
first eigenvalue of the `3_T_1` block; d6: first eigenvalue of the `1_A_1`
block) is at most the tolerance (`0` for d4, `ENERGY_TOLERANCE` for d6),
then every returned array is shifted by that value a second time — no block
is skipped — so the candidate's first entry reads `0`. -/
theorem d4_d6_conditional_rezero {α : Type} [LinearOrderedField α]
    (e : Env α) (s4 s6 : LigandFieldTheory α)
    (h4 : ((d4.T_3_1_states e s4).map
      fun x => x - (-6 * s4.Dq - 21 * s4.B)).getD 0 0 ≤ 0)
    (h6 : ((d6.A_1_1_states e s6).map
      fun x => -(-4 * s6.Dq - 21 * s6.B) + x).getD 0 0 ≤ ENERGY_TOLERANCE α) :
    (d4.solver e s4 =
      [("3_T_1", (d4.T_3_1_states e s4).map fun x => x - (-6 * s4.Dq - 21 * s4.B)),
       ("1_T_2", (d4.T_1_2_states e s4).map fun x => x - (-6 * s4.Dq - 21 * s4.B)),
       ("1_A_1", (d4.A_1_1_states e s4).map fun x => x - (-6 * s4.Dq - 21 * s4.B)),
       ("1_E_1", (d4.E_1_1_states e s4).map fun x => x - (-6 * s4.Dq - 21 * s4.B)),
       ("3_T_2", (d4.T_3_2_states e s4).map fun x => x - (-6 * s4.Dq - 21 * s4.B)),
       ("1_T_1", (d4.T_1_1_states e s4).map fun x => x - (-6 * s4.Dq - 21 * s4.B)),
       ("3_E_1", (d4.E_3_1_states e s4).map fun x => x - (-6 * s4.Dq - 21 * s4.B)),
       ("3_A_2", (d4.A_3_2_states e s4).map fun x => x - (-6 * s4.Dq - 21 * s4.B)),
       ("1_A_2", (d4.A_1_2_states e s4).map fun x => x - (-6 * s4.Dq - 21 * s4.B)),
       ("5_E_1", ([0] : List α)),
       ("5_T_2", [4 * s4.Dq - 21 * s4.B - (-6 * s4.Dq - 21 * s4.B)]),
       ("3_A_1", [-6 * s4.Dq - 12 * s4.B + 4 * s4.C - (-6 * s4.Dq - 21 * s4.B)])].map
        (fun kv => (kv.1, kv.2.map fun x =>
          x - ((d4.T_3_1_states e s4).map
            fun y => y - (-6 * s4.Dq - 21 * s4.B)).getD 0 0)) ∧
      (getTerm (d4.solver e s4) "3_T_1").getD 0 0 = 0) ∧
    (d6.solver e s6 =
      [("3_T_1", (d6.T_3_1_states e s6).map fun x => -(-4 * s6.Dq - 21 * s6.B) + x),
       ("1_T_2", (d6.T_1_2_states e s6).map fun x => -(-4 * s6.Dq - 21 * s6.B) + x),
       ("1_A_1", (d6.A_1_1_states e s6).map fun x => -(-4 * s6.Dq - 21 * s6.B) + x),
       ("1_E_1", (d6.E_1_1_states e s6).map fun x => -(-4 * s6.Dq - 21 * s6.B) + x),
       ("3_T_2", (d6.T_3_2_states e s6).map fun x => -(-4 * s6.Dq - 21 * s6.B) + x),
       ("1_T_1", (d6.T_1_1_states e s6).map fun x => -(-4 * s6.Dq - 21 * s6.B) + x),
       ("3_E_1", (d6.E_3_1_states e s6).map fun x => -(-4 * s6.Dq - 21 * s6.B) + x),
       ("3_A_2", (d6.A_3_2_states e s6).map fun x => -(-4 * s6.Dq - 21 * s6.B) + x),
       ("1_A_2", (d6.A_1_2_states e s6).map fun x => -(-4 * s6.Dq - 21 * s6.B) + x),
       ("5_E_1", [6 * s6.Dq - 21 * s6.B - (-4 * s6.Dq - 21 * s6.B)]),
       ("5_T_2", ([0] : List α)),
       ("3_A_1", [6 * s6.Dq - 12 * s6.B + 4 * s6.C - (-4 * s6.Dq - 21 * s6.B)])].map
        (fun kv => (kv.1, kv.2.map fun x =>
          x - ((d6.A_1_1_states e s6).map
            fun y => -(-4 * s6.Dq - 21 * s6.B) + y).getD 0 0)) ∧
      (getTerm (d6.solver e s6) "1_A_1").getD 0 0 = 0) := by
  refine ⟨⟨?_, ?_⟩, ⟨?_, ?_⟩⟩
  · simp only [d4.solver]
    rw [if_pos h4]
    rfl
  · simp only [d4.solver, getTerm, List.lookup]
    rw [if_pos h4]
    norm_num [List.lookup]
    cases hl : d4.T_3_1_states e s4 with
    | nil => simp [List.lookup]
    | cons a l => simp [List.lookup]
  · simp only [d6.solver]
    rw [if_pos h6]
    rfl
  · simp only [d6.solver, getTerm, List.lookup]
    rw [if_pos h6]
    norm_num [List.lookup]
    cases hl : d6.A_1_1_states e s6 with
    | nil => simp [List.lookup]
    | cons a l => simp [List.lookup]

/-- Witness for `d4_d6_conditional_rezero` at the environment `zeroEnv` and
parameters `Dq = B = C = 0`, where both crossing conditions hold. -/
theorem d4_d6_conditional_rezero_witness :
    (((d4.T_3_1_states zeroEnv sZero).map
        fun x => x - (-6 * sZero.Dq - 21 * sZero.B)).getD 0 0 ≤ 0 ∧
      ((d6.A_1_1_states zeroEnv sZero).map
        fun x => -(-4 * sZero.Dq - 21 * sZero.B) + x).getD 0 0 ≤
        ENERGY_TOLERANCE ℚ) ∧
    (getTerm (d4.solver zeroEnv sZero) "3_T_1").getD 0 0 = 0 ∧
    (getTerm (d6.solver zeroEnv sZero) "1_A_1").getD 0 0 = 0 := by
  have hh4 : ((d4.T_3_1_states zeroEnv sZero).map
      fun x => x - (-6 * sZero.Dq - 21 * sZero.B)).getD 0 0 ≤ 0 := by
    norm_num [d4.T_3_1_states, zeroEnv, sZero]
  have hh6 : ((d6.A_1_1_states zeroEnv sZero).map
      fun x => -(-4 * sZero.Dq - 21 * sZero.B) + x).getD 0 0 ≤
      ENERGY_TOLERANCE ℚ := by
    norm_num [d6.A_1_1_states, zeroEnv, sZero, ENERGY_TOLERANCE]
  exact ⟨⟨hh4, hh6⟩,
    (d4_d6_conditional_rezero zeroEnv sZero sZero hh4 hh6).1.2,
    (d4_d6_conditional_rezero zeroEnv sZero sZero hh4 hh6).2.2⟩

/-- Claim C8: each `solver` is a deterministic pure function of
`(Dq, B, C)`: two fresh instances with identical parameters yield identical
result mappings, for every environment (hence for every fixed eigensolver).
In the embedding the instance state is exactly `{Dq, B, C}` and `solver`
neither reads nor writes anything else. -/
theorem solver_deterministic {α : Type} [LinearOrderedField α] (e : Env α)
    (a b : LigandFieldTheory α) (hDq : a.Dq = b.Dq) (hB : a.B = b.B)
    (hC : a.C = b.C) :
    d2.solver e a = d2.solver e b ∧ d3.solver e a = d3.solver e b ∧
    d4.solver e a = d4.solver e b ∧ d5.solver e a = d5.solver e b ∧
    d6.solver e a = d6.solver e b ∧ d7.solver e a = d7.solver e b ∧
    d8.solver e a = d8.solver e b := by
  obtain ⟨aDq, aB, aC⟩ := a
  obtain ⟨bDq, bB, bC⟩ := b
  obtain rfl : aDq = bDq := hDq
  obtain rfl : aB = bB := hB
  obtain rfl : aC = bC := hC
  exact ⟨rfl, rfl, rfl, rfl, rfl, rfl, rfl⟩

/-- Witness for `solver_deterministic` at the environment `zeroEnv` and two
instances both built from `(Dq, B, C) = (1, 2, 3)`. -/
theorem solver_deterministic_witness :
    ((LigandFieldTheory.mk (1 : ℚ) 2 3).Dq = (LigandFieldTheory.mk (1 : ℚ) 2 3).Dq ∧
      (LigandFieldTheory.mk (1 : ℚ) 2 3).B = (LigandFieldTheory.mk (1 : ℚ) 2 3).B ∧
      (LigandFieldTheory.mk (1 : ℚ) 2 3).C = (LigandFieldTheory.mk (1 : ℚ) 2 3).C) ∧
    (d2.solver zeroEnv ⟨1, 2, 3⟩ = d2.solver zeroEnv ⟨1, 2, 3⟩ ∧
      d3.solver zeroEnv ⟨1, 2, 3⟩ = d3.solver zeroEnv ⟨1, 2, 3⟩ ∧
      d4.solver zeroEnv ⟨1, 2, 3⟩ = d4.solver zeroEnv ⟨1, 2, 3⟩ ∧
      d5.solver zeroEnv ⟨1, 2, 3⟩ = d5.solver zeroEnv ⟨1, 2, 3⟩ ∧
      d6.solver zeroEnv ⟨1, 2, 3⟩ = d6.solver zeroEnv ⟨1, 2, 3⟩ ∧
      d7.solver zeroEnv ⟨1, 2, 3⟩ = d7.solver zeroEnv ⟨1, 2, 3⟩ ∧
      d8.solver zeroEnv ⟨1, 2, 3⟩ = d8.solver zeroEnv ⟨1, 2, 3⟩) :=
  ⟨⟨rfl, rfl, rfl⟩, solver_deterministic zeroEnv ⟨1, 2, 3⟩ ⟨1, 2, 3⟩ rfl rfl rfl⟩

/-- Claim C9: for every `F2` and `F4`, the Slater-Condon-to-Racah conversion
`racah F2 F4` returns exactly `B = 8065.54 * (F2 / 49 - 5 * F4 / 441)` and
`C = 8065.54 * (35 * F4 / 441)`, with `k = 8065.54`. -/
theorem racah_formula {α : Type} [Field α] (F2 F4 : α) :
    racah F2 F4 =
      (8065.54 * (F2 / 49 - 5 * F4 / 441), 8065.54 * (35 * F4 / 441)) := by
  rw [racah, Prod.mk.injEq]
  constructor <;> ring

/-- Claim C10 (hole-conjugation symmetry): for every environment and all
`(Dq, B, C)`, each block-builder of d8, d7 and d6 constructs exactly the
same matrix as the identically named block-builder of its conjugate
configuration (d2, d3, d4 respectively) evaluated at `(-Dq, B, C)` — every
diagonal entry's `Dq` coefficient is negated while all `B`, `C` coefficients
and all off-diagonal couplings are identical — hence the per-block state
vectors returned through the (shared) eigensolver coincide under
`Dq -> -Dq`. -/
theorem hole_conjugation {α : Type} [LinearOrderedField α] (e : Env α)
    (Dq B C : α) :
    d8.A_1_1_mat e ⟨Dq, B, C⟩ = d2.A_1_1_mat e ⟨-Dq, B, C⟩ ∧
    d8.A_1_1_states e ⟨Dq, B, C⟩ = d2.A_1_1_states e ⟨-Dq, B, C⟩ ∧
    d8.E_1_mat e ⟨Dq, B, C⟩ = d2.E_1_mat e ⟨-Dq, B, C⟩ ∧
    d8.E_1_states e ⟨Dq, B, C⟩ = d2.E_1_states e ⟨-Dq, B, C⟩ ∧
    d8.T_1_2_mat e ⟨Dq, B, C⟩ = d2.T_1_2_mat e ⟨-Dq, B, C⟩ ∧
    d8.T_1_2_states e ⟨Dq, B, C⟩ = d2.T_1_2_states e ⟨-Dq, B, C⟩ ∧
    d8.T_3_1_mat e ⟨Dq, B, C⟩ = d2.T_3_1_mat e ⟨-Dq, B, C⟩ ∧
    d8.T_3_1_states e ⟨Dq, B, C⟩ = d2.T_3_1_states e ⟨-Dq, B, C⟩ ∧
    d7.T_2_2_mat e ⟨Dq, B, C⟩ = d3.T_2_2_mat e ⟨-Dq, B, C⟩ ∧
    d7.T_2_2_states e ⟨Dq, B, C⟩ = d3.T_2_2_states e ⟨-Dq, B, C⟩ ∧
    d7.T_2_1_mat e ⟨Dq, B, C⟩ = d3.T_2_1_mat e ⟨-Dq, B, C⟩ ∧
    d7.T_2_1_states e ⟨Dq, B, C⟩ = d3.T_2_1_states e ⟨-Dq, B, C⟩ ∧
    d7.E_2_mat e ⟨Dq, B, C⟩ = d3.E_2_mat e ⟨-Dq, B, C⟩ ∧
    d7.E_2_states e ⟨Dq, B, C⟩ = d3.E_2_states e ⟨-Dq, B, C⟩ ∧
    d7.T_4_1_mat e ⟨Dq, B, C⟩ = d3.T_4_1_mat e ⟨-Dq, B, C⟩ ∧
    d7.T_4_1_states e ⟨Dq, B, C⟩ = d3.T_4_1_states e ⟨-Dq, B, C⟩ ∧
    d6.T_3_1_mat e ⟨Dq, B, C⟩ = d4.T_3_1_mat e ⟨-Dq, B, C⟩ ∧
    d6.T_3_1_states e ⟨Dq, B, C⟩ = d4.T_3_1_states e ⟨-Dq, B, C⟩ ∧
    d6.T_1_2_mat e ⟨Dq, B, C⟩ = d4.T_1_2_mat e ⟨-Dq, B, C⟩ ∧
    d6.T_1_2_states e ⟨Dq, B, C⟩ = d4.T_1_2_states e ⟨-Dq, B, C⟩ ∧
    d6.A_1_1_mat e ⟨Dq, B, C⟩ = d4.A_1_1_mat e ⟨-Dq, B, C⟩ ∧
    d6.A_1_1_states e ⟨Dq, B, C⟩ = d4.A_1_1_states e ⟨-Dq, B, C⟩ ∧
    d6.E_1_1_mat e ⟨Dq, B, C⟩ = d4.E_1_1_mat e ⟨-Dq, B, C⟩ ∧
    d6.E_1_1_states e ⟨Dq, B, C⟩ = d4.E_1_1_states e ⟨-Dq, B, C⟩ ∧
    d6.T_3_2_mat e ⟨Dq, B, C⟩ = d4.T_3_2_mat e ⟨-Dq, B, C⟩ ∧
    d6.T_3_2_states e ⟨Dq, B, C⟩ = d4.T_3_2_states e ⟨-Dq, B, C⟩ ∧
    d6.T_1_1_mat e ⟨Dq, B, C⟩ = d4.T_1_1_mat e ⟨-Dq, B, C⟩ ∧
    d6.T_1_1_states e ⟨Dq, B, C⟩ = d4.T_1_1_states e ⟨-Dq, B, C⟩ ∧
    d6.E_3_1_mat e ⟨Dq, B, C⟩ = d4.E_3_1_mat e ⟨-Dq, B, C⟩ ∧
    d6.E_3_1_states e ⟨Dq, B, C⟩ = d4.E_3_1_states e ⟨-Dq, B, C⟩ ∧
    d6.A_3_2_mat e ⟨Dq, B, C⟩ = d4.A_3_2_mat e ⟨-Dq, B, C⟩ ∧
    d6.A_3_2_states e ⟨Dq, B, C⟩ = d4.A_3_2_states e ⟨-Dq, B, C⟩ ∧
    d6.A_1_2_mat e ⟨Dq, B, C⟩ = d4.A_1_2_mat e ⟨-Dq, B, C⟩ ∧
    d6.A_1_2_states e ⟨Dq, B, C⟩ = d4.A_1_2_states e ⟨-Dq, B, C⟩ := by
  have hm_d8_A_1_1 : d8.A_1_1_mat e ⟨Dq, B, C⟩ = d2.A_1_1_mat e ⟨-Dq, B, C⟩ := by
    simp only [d8.A_1_1_mat, d2.A_1_1_mat, _2sqrt2, _2sqrt3, _3sqrt2,
      _3sqrt3, _3sqrt6]
    ring_nf
  have hs_d8_A_1_1 : d8.A_1_1_states e ⟨Dq, B, C⟩ = d2.A_1_1_states e ⟨-Dq, B, C⟩ := by
    rw [d8.A_1_1_states, d2.A_1_1_states, hm_d8_A_1_1]
  have hm_d8_E_1 : d8.E_1_mat e ⟨Dq, B, C⟩ = d2.E_1_mat e ⟨-Dq, B, C⟩ := by
    simp only [d8.E_1_mat, d2.E_1_mat, _2sqrt2, _2sqrt3, _3sqrt2,
      _3sqrt3, _3sqrt6]
    ring_nf
  have hs_d8_E_1 : d8.E_1_states e ⟨Dq, B, C⟩ = d2.E_1_states e ⟨-Dq, B, C⟩ := by
    rw [d8.E_1_states, d2.E_1_states, hm_d8_E_1]
  have hm_d8_T_1_2 : d8.T_1_2_mat e ⟨Dq, B, C⟩ = d2.T_1_2_mat e ⟨-Dq, B, C⟩ := by
    simp only [d8.T_1_2_mat, d2.T_1_2_mat, _2sqrt2, _2sqrt3, _3sqrt2,
      _3sqrt3, _3sqrt6]
    ring_nf
  have hs_d8_T_1_2 : d8.T_1_2_states e ⟨Dq, B, C⟩ = d2.T_1_2_states e ⟨-Dq, B, C⟩ := by
    rw [d8.T_1_2_states, d2.T_1_2_states, hm_d8_T_1_2]
  have hm_d8_T_3_1 : d8.T_3_1_mat e ⟨Dq, B, C⟩ = d2.T_3_1_mat e ⟨-Dq, B, C⟩ := by
    simp only [d8.T_3_1_mat, d2.T_3_1_mat, _2sqrt2, _2sqrt3, _3sqrt2,
      _3sqrt3, _3sqrt6]
    ring_nf
  have hs_d8_T_3_1 : d8.T_3_1_states e ⟨Dq, B, C⟩ = d2.T_3_1_states e ⟨-Dq, B, C⟩ := by
    rw [d8.T_3_1_states, d2.T_3_1_states, hm_d8_T_3_1]
  have hm_d7_T_2_2 : d7.T_2_2_mat e ⟨Dq, B, C⟩ = d3.T_2_2_mat e ⟨-Dq, B, C⟩ := by
    simp only [d7.T_2_2_mat, d3.T_2_2_mat, _2sqrt2, _2sqrt3, _3sqrt2,
      _3sqrt3, _3sqrt6]
    ring_nf
  have hs_d7_T_2_2 : d7.T_2_2_states e ⟨Dq, B, C⟩ = d3.T_2_2_states e ⟨-Dq, B, C⟩ := by
    rw [d7.T_2_2_states, d3.T_2_2_states, hm_d7_T_2_2]
  have hm_d7_T_2_1 : d7.T_2_1_mat e ⟨Dq, B, C⟩ = d3.T_2_1_mat e ⟨-Dq, B, C⟩ := by
    simp only [d7.T_2_1_mat, d3.T_2_1_mat, _2sqrt2, _2sqrt3, _3sqrt2,
      _3sqrt3, _3sqrt6]
    ring_nf
  have hs_d7_T_2_1 : d7.T_2_1_states e ⟨Dq, B, C⟩ = d3.T_2_1_states e ⟨-Dq, B, C⟩ := by
    rw [d7.T_2_1_states, d3.T_2_1_states, hm_d7_T_2_1]
  have hm_d7_E_2 : d7.E_2_mat e ⟨Dq, B, C⟩ = d3.E_2_mat e ⟨-Dq, B, C⟩ := by
    simp only [d7.E_2_mat, d3.E_2_mat, _2sqrt2, _2sqrt3, _3sqrt2,
      _3sqrt3, _3sqrt6]
    ring_nf
  have hs_d7_E_2 : d7.E_2_states e ⟨Dq, B, C⟩ = d3.E_2_states e ⟨-Dq, B, C⟩ := by
    rw [d7.E_2_states, d3.E_2_states, hm_d7_E_2]
  have hm_d7_T_4_1 : d7.T_4_1_mat e ⟨Dq, B, C⟩ = d3.T_4_1_mat e ⟨-Dq, B, C⟩ := by
    simp only [d7.T_4_1_mat, d3.T_4_1_mat, _2sqrt2, _2sqrt3, _3sqrt2,
      _3sqrt3, _3sqrt6]
    ring_nf
  have hs_d7_T_4_1 : d7.T_4_1_states e ⟨Dq, B, C⟩ = d3.T_4_1_states e ⟨-Dq, B, C⟩ := by
    rw [d7.T_4_1_states, d3.T_4_1_states, hm_d7_T_4_1]
  have hm_d6_T_3_1 : d6.T_3_1_mat e ⟨Dq, B, C⟩ = d4.T_3_1_mat e ⟨-Dq, B, C⟩ := by
    simp only [d6.T_3_1_mat, d4.T_3_1_mat, _2sqrt2, _2sqrt3, _3sqrt2,
      _3sqrt3, _3sqrt6]
    ring_nf
  have hs_d6_T_3_1 : d6.T_3_1_states e ⟨Dq, B, C⟩ = d4.T_3_1_states e ⟨-Dq, B, C⟩ := by
    rw [d6.T_3_1_states, d4.T_3_1_states, hm_d6_T_3_1]
  have hm_d6_T_1_2 : d6.T_1_2_mat e ⟨Dq, B, C⟩ = d4.T_1_2_mat e ⟨-Dq, B, C⟩ := by
    simp only [d6.T_1_2_mat, d4.T_1_2_mat, _2sqrt2, _2sqrt3, _3sqrt2,
      _3sqrt3, _3sqrt6]
    ring_nf
  have hs_d6_T_1_2 : d6.T_1_2_states e ⟨Dq, B, C⟩ = d4.T_1_2_states e ⟨-Dq, B, C⟩ := by
    rw [d6.T_1_2_states, d4.T_1_2_states, hm_d6_T_1_2]
  have hm_d6_A_1_1 : d6.A_1_1_mat e ⟨Dq, B, C⟩ = d4.A_1_1_mat e ⟨-Dq, B, C⟩ := by
    simp only [d6.A_1_1_mat, d4.A_1_1_mat, _2sqrt2, _2sqrt3, _3sqrt2,
      _3sqrt3, _3sqrt6]
    ring_nf
  have hs_d6_A_1_1 : d6.A_1_1_states e ⟨Dq, B, C⟩ = d4.A_1_1_states e ⟨-Dq, B, C⟩ := by
    rw [d6.A_1_1_states, d4.A_1_1_states, hm_d6_A_1_1]
  have hm_d6_E_1_1 : d6.E_1_1_mat e ⟨Dq, B, C⟩ = d4.E_1_1_mat e ⟨-Dq, B, C⟩ := by
    simp only [d6.E_1_1_mat, d4.E_1_1_mat, _2sqrt2, _2sqrt3, _3sqrt2,
      _3sqrt3, _3sqrt6]
    ring_nf
  have hs_d6_E_1_1 : d6.E_1_1_states e ⟨Dq, B, C⟩ = d4.E_1_1_states e ⟨-Dq, B, C⟩ := by
    rw [d6.E_1_1_states, d4.E_1_1_states, hm_d6_E_1_1]
  have hm_d6_T_3_2 : d6.T_3_2_mat e ⟨Dq, B, C⟩ = d4.T_3_2_mat e ⟨-Dq, B, C⟩ := by
    simp only [d6.T_3_2_mat, d4.T_3_2_mat, _2sqrt2, _2sqrt3, _3sqrt2,
      _3sqrt3, _3sqrt6]
    ring_nf
  have hs_d6_T_3_2 : d6.T_3_2_states e ⟨Dq, B, C⟩ = d4.T_3_2_states e ⟨-Dq, B, C⟩ := by
    rw [d6.T_3_2_states, d4.T_3_2_states, hm_d6_T_3_2]
  have hm_d6_T_1_1 : d6.T_1_1_mat e ⟨Dq, B, C⟩ = d4.T_1_1_mat e ⟨-Dq, B, C⟩ := by
    simp only [d6.T_1_1_mat, d4.T_1_1_mat, _2sqrt2, _2sqrt3, _3sqrt2,
      _3sqrt3, _3sqrt6]
    ring_nf
  have hs_d6_T_1_1 : d6.T_1_1_states e ⟨Dq, B, C⟩ = d4.T_1_1_states e ⟨-Dq, B, C⟩ := by
    rw [d6.T_1_1_states, d4.T_1_1_states, hm_d6_T_1_1]
  have hm_d6_E_3_1 : d6.E_3_1_mat e ⟨Dq, B, C⟩ = d4.E_3_1_mat e ⟨-Dq, B, C⟩ := by
    simp only [d6.E_3_1_mat, d4.E_3_1_mat, _2sqrt2, _2sqrt3, _3sqrt2,
      _3sqrt3, _3sqrt6]
    ring_nf
  have hs_d6_E_3_1 : d6.E_3_1_states e ⟨Dq, B, C⟩ = d4.E_3_1_states e ⟨-Dq, B, C⟩ := by
    rw [d6.E_3_1_states, d4.E_3_1_states, hm_d6_E_3_1]
  have hm_d6_A_3_2 : d6.A_3_2_mat e ⟨Dq, B, C⟩ = d4.A_3_2_mat e ⟨-Dq, B, C⟩ := by
    simp only [d6.A_3_2_mat, d4.A_3_2_mat, _2sqrt2, _2sqrt3, _3sqrt2,
      _3sqrt3, _3sqrt6]
    ring_nf
  have hs_d6_A_3_2 : d6.A_3_2_states e ⟨Dq, B, C⟩ = d4.A_3_2_states e ⟨-Dq, B, C⟩ := by
    rw [d6.A_3_2_states, d4.A_3_2_states, hm_d6_A_3_2]
  have hm_d6_A_1_2 : d6.A_1_2_mat e ⟨Dq, B, C⟩ = d4.A_1_2_mat e ⟨-Dq, B, C⟩ := by
    simp only [d6.A_1_2_mat, d4.A_1_2_mat, _2sqrt2, _2sqrt3, _3sqrt2,
      _3sqrt3, _3sqrt6]
    ring_nf
  have hs_d6_A_1_2 : d6.A_1_2_states e ⟨Dq, B, C⟩ = d4.A_1_2_states e ⟨-Dq, B, C⟩ := by
    rw [d6.A_1_2_states, d4.A_1_2_states, hm_d6_A_1_2]
  exact ⟨hm_d8_A_1_1, hs_d8_A_1_1, hm_d8_E_1, hs_d8_E_1, hm_d8_T_1_2, hs_d8_T_1_2, hm_d8_T_3_1, hs_d8_T_3_1, hm_d7_T_2_2, hs_d7_T_2_2, hm_d7_T_2_1, hs_d7_T_2_1, hm_d7_E_2, hs_d7_E_2, hm_d7_T_4_1, hs_d7_T_4_1, hm_d6_T_3_1, hs_d6_T_3_1, hm_d6_T_1_2, hs_d6_T_1_2, hm_d6_A_1_1, hs_d6_A_1_1, hm_d6_E_1_1, hs_d6_E_1_1, hm_d6_T_3_2, hs_d6_T_3_2, hm_d6_T_1_1, hs_d6_T_1_1, hm_d6_E_3_1, hs_d6_E_3_1, hm_d6_A_3_2, hs_d6_A_3_2, hm_d6_A_1_2, hs_d6_A_1_2⟩
